import Mathlib

/-!
Shallow embedding of `hack/scripts/aws/manual_account_resuse.py`
(the manual account-reuse cleanup script) and proofs about it.

The script assumes a cross-account role and then deletes, in a fixed order,
all S3 buckets, EBS snapshots, EBS volumes and Route53 hosted zones (purging
a zone's record sets before deleting the zone).  The cloud is modelled by an
environment `Env` providing the listing responses and the HTTP status code
returned by each mutating call.  Every embedded function returns the ordered
trace of AWS API calls it issues, the ordered list of lines it prints, and
(where the script keeps one) its success tally.
-/

namespace AAO

/-- An S3 bucket as it appears in a `list_buckets` response. -/
structure Bucket where
  name : String
deriving DecidableEq, Repr

/-- An EBS volume as it appears in a `describe_volumes` page
(the script reads field `Id` of each volume). -/
structure Volume where
  id : String
deriving DecidableEq, Repr

/-- An EBS snapshot as it appears in a `describe_snapshots` page
(the script reads field `Id` of each snapshot). -/
structure Snapshot where
  id : String
deriving DecidableEq, Repr

/-- A Route53 hosted zone as it appears in a `list_hosted_zones` page:
the script reads its `Id` and its `ResourceRecordSetCount`. -/
structure HostedZone where
  id : String
  resourceRecordSetCount : Nat
deriving DecidableEq, Repr

/-- A DNS record set: the script inspects its `Type` and forwards the whole
record in a change batch. -/
structure RecordSet where
  name : String
  rtype : String
  data : String
deriving DecidableEq, Repr

/-- One entry of a Route53 change batch, as built by
`create_and_submit_change_batch`. -/
structure Change where
  action : String
  resourceRecordSet : RecordSet
deriving DecidableEq, Repr

/-- The value the script passes as the `Bucket=` argument of `delete_bucket`.
The source passes the whole listing record (`delete_bucket(Bucket=bucket)`),
not the name string; both shapes are representable so that the difference is
observable. -/
inductive BucketArg where
  | record (bucket : Bucket)
  | nameOnly (s : String)
deriving DecidableEq, Repr

/-- A fatal error raised by a cloud API call (e.g. a transport fault or a
role-assumption denial).  The script installs no handler for these. -/
inductive AwsError where
  | fatal (msg : String)
deriving DecidableEq, Repr

/-- One AWS API call issued by the script, with the arguments the script
passes. -/
inductive ApiCall where
  | getCallerIdentity
  | assumeRole (roleArn roleSessionName : String) (durationSeconds : Nat)
  | listBuckets
  | deleteBucket (bucketArg : BucketArg)
  | describeSnapshots (filterName filterValue : String)
  | deleteSnapshot (snapshotId : String)
  | describeVolumes
  | deleteVolume (volumeId : String)
  | listHostedZones
  | listResourceRecordSets (hostedZoneId : String)
  | changeResourceRecordSets (hostedZoneId : String) (changes : List Change)
  | deleteHostedZone (zoneId : String)
deriving DecidableEq, Repr

/-- One line printed by the script: the verbose dumps, the per-item failure
lines, and the per-type summary tallies. -/
inductive LogLine where
  | dumpCallerIdentity
  | dumpSession
  | dumpBucketsResponse (buckets : List Bucket)
  | dumpBucketName (name : String)
  | failedBucket (bucket : Bucket)
  | bucketsDeleted (n : Nat)
  | dumpSnapshotPage (page : List Snapshot)
  | dumpSnapshot (s : Snapshot)
  | failedSnapshot (snapshotId : String)
  | snapshotsDeleted (n : Nat)
  | dumpVolumePage (page : List Volume)
  | dumpVolume (v : Volume)
  | failedVolume (volumeId : String)
  | volumesDeleted (n : Nat)
  | dumpZonePage (page : List HostedZone)
  | dumpZone (z : HostedZone)
  | dumpRecordSetPage (page : List RecordSet)
  | dumpRecordSet (rs : RecordSet)
  | failedRecordSetBatch (changes : List Change)
  | recordsDeleted (n : Nat)
  | failedZone (zoneId : String)
  | zonesDeleted (n : Nat)
  | deletingResources (accountId : Nat)
deriving DecidableEq, Repr

/-- The cloud environment of one run: listing responses (a listing is
`Except.error` when the underlying call raises) and the HTTP status code
each mutating call returns. -/
structure Env where
  assumeRoleResult : Except AwsError Unit
  bucketsResponse : Except AwsError (List Bucket)
  deleteBucketStatus : Bucket → Nat
  snapshotPages : Except AwsError (List (List Snapshot))
  deleteSnapshotStatus : String → Nat
  volumePages : Except AwsError (List (List Volume))
  deleteVolumeStatus : String → Nat
  zonePages : Except AwsError (List (List HostedZone))
  recordSetPages : String → List (List RecordSet)
  changeBatchStatus : String → List Change → Nat
  deleteZoneStatus : String → Nat

/-- Result of running a script function: the API calls issued, the lines
printed, and the uncaught exception that aborted it, if any. -/
structure RunOut where
  calls : List ApiCall
  logs : List LogLine
  err : Option AwsError
deriving DecidableEq, Repr

/-- Python sequencing of two statements: if the first raises, the second
never runs (the script has no `try`/`except`). -/
def RunOut.seq (a b : RunOut) : RunOut :=
  match a.err with
  | some _ => a
  | none => ⟨a.calls ++ b.calls, a.logs ++ b.logs, b.err⟩

/-- Embedding of `assume_role`: the caller-identity dump is guarded by
`verbose and print(...)`, so the STS `get_caller_identity` call itself only
happens when verbose. -/
def assume_role (env : Env) (account_id : Nat) (verbose : Bool) : RunOut :=
  let role_arn := "arn:aws:iam::" ++ toString account_id ++ ":role/OrganizationAccountAccessRole"
  let role_session_name := "SREAdminReuseCleanup"
  let duration := 900
  let idCalls := if verbose then [ApiCall.getCallerIdentity] else []
  let idLogs := if verbose then [LogLine.dumpCallerIdentity] else []
  match env.assumeRoleResult with
  | Except.error e =>
      ⟨idCalls ++ [ApiCall.assumeRole role_arn role_session_name duration], idLogs, some e⟩
  | Except.ok _ =>
      ⟨idCalls ++ [ApiCall.assumeRole role_arn role_session_name duration],
       idLogs ++ (if verbose then [LogLine.dumpSession] else []), none⟩

/-- The `for bucket in response['Buckets']` loop of `get_and_delete_s3_buckets`:
returns (calls, logs, bucket_count). -/
def delete_buckets_loop (env : Env) (verbose : Bool) :
    List Bucket → List ApiCall × List LogLine × Nat
  | [] => ([], [], 0)
  | bucket :: rest =>
      let vlog := if verbose then [LogLine.dumpBucketName bucket.name] else []
      let status := env.deleteBucketStatus bucket
      let failLog := if status ≠ 200 then [LogLine.failedBucket bucket] else []
      let inc := if status = 200 then 1 else 0
      let r := delete_buckets_loop env verbose rest
      (ApiCall.deleteBucket (BucketArg.record bucket) :: r.1,
       vlog ++ failLog ++ r.2.1, inc + r.2.2)

/-- Embedding of `get_and_delete_s3_buckets`.  Note that the delete call is
issued as `delete_bucket(Bucket=bucket)`: the whole listing record is passed,
not `bucket['Name']`. -/
def get_and_delete_s3_buckets (env : Env) (verbose : Bool) : RunOut :=
  match env.bucketsResponse with
  | Except.error e => ⟨[ApiCall.listBuckets], [], some e⟩
  | Except.ok buckets =>
      let dump := if verbose then [LogLine.dumpBucketsResponse buckets] else []
      let body := if buckets.isEmpty then ([], [], 0) else delete_buckets_loop env verbose buckets
      ⟨ApiCall.listBuckets :: body.1,
       dump ++ body.2.1 ++ [LogLine.bucketsDeleted body.2.2], none⟩

/-- The inner `for snapshot in page['Snapshots']` loop of
`get_and_delete_snapshots`. -/
def delete_snapshots_loop (env : Env) (verbose : Bool) :
    List Snapshot → List ApiCall × List LogLine × Nat
  | [] => ([], [], 0)
  | snapshot :: rest =>
      let vlog := if verbose then [LogLine.dumpSnapshot snapshot] else []
      let status := env.deleteSnapshotStatus snapshot.id
      let failLog := if status ≠ 200 then [LogLine.failedSnapshot snapshot.id] else []
      let inc := if status = 200 then 1 else 0
      let r := delete_snapshots_loop env verbose rest
      (ApiCall.deleteSnapshot snapshot.id :: r.1, vlog ++ failLog ++ r.2.1, inc + r.2.2)

/-- The outer `for page in page_iterator` loop of `get_and_delete_snapshots`. -/
def snapshot_pages_loop (env : Env) (verbose : Bool) :
    List (List Snapshot) → List ApiCall × List LogLine × Nat
  | [] => ([], [], 0)
  | page :: rest =>
      let vlog := if verbose then [LogLine.dumpSnapshotPage page] else []
      let r1 := delete_snapshots_loop env verbose page
      let r2 := snapshot_pages_loop env verbose rest
      (r1.1 ++ r2.1, vlog ++ r1.2.1 ++ r2.2.1, r1.2.2 + r2.2.2)

/-- Embedding of `get_and_delete_snapshots` (the listing is filtered
server-side to `owner-alias = self`). -/
def get_and_delete_snapshots (env : Env) (verbose : Bool) : RunOut :=
  match env.snapshotPages with
  | Except.error e => ⟨[ApiCall.describeSnapshots "owner-alias" "self"], [], some e⟩
  | Except.ok pages =>
      let body := snapshot_pages_loop env verbose pages
      ⟨ApiCall.describeSnapshots "owner-alias" "self" :: body.1,
       body.2.1 ++ [LogLine.snapshotsDeleted body.2.2], none⟩

/-- The inner `for volume in page['Volumes']` loop of
`get_and_delete_ebs_volumes`. -/
def delete_volumes_loop (env : Env) (verbose : Bool) :
    List Volume → List ApiCall × List LogLine × Nat
  | [] => ([], [], 0)
  | volume :: rest =>
      let vlog := if verbose then [LogLine.dumpVolume volume] else []
      let status := env.deleteVolumeStatus volume.id
      let failLog := if status ≠ 200 then [LogLine.failedVolume volume.id] else []
      let inc := if status = 200 then 1 else 0
      let r := delete_volumes_loop env verbose rest
      (ApiCall.deleteVolume volume.id :: r.1, vlog ++ failLog ++ r.2.1, inc + r.2.2)

/-- The outer page loop of `get_and_delete_ebs_volumes`. -/
def volume_pages_loop (env : Env) (verbose : Bool) :
    List (List Volume) → List ApiCall × List LogLine × Nat
  | [] => ([], [], 0)
  | page :: rest =>
      let vlog := if verbose then [LogLine.dumpVolumePage page] else []
      let r1 := delete_volumes_loop env verbose page
      let r2 := volume_pages_loop env verbose rest
      (r1.1 ++ r2.1, vlog ++ r1.2.1 ++ r2.2.1, r1.2.2 + r2.2.2)

/-- Embedding of `get_and_delete_ebs_volumes`. -/
def get_and_delete_ebs_volumes (env : Env) (verbose : Bool) : RunOut :=
  match env.volumePages with
  | Except.error e => ⟨[ApiCall.describeVolumes], [], some e⟩
  | Except.ok pages =>
      let body := volume_pages_loop env verbose pages
      ⟨ApiCall.describeVolumes :: body.1,
       body.2.1 ++ [LogLine.volumesDeleted body.2.2], none⟩

/-- Embedding of `get_and_delete_volumes_and_snapshots`: snapshots first,
then volumes, on the same EC2 client. -/
def get_and_delete_volumes_and_snapshots (env : Env) (verbose : Bool) : RunOut :=
  RunOut.seq (get_and_delete_snapshots env verbose) (get_and_delete_ebs_volumes env verbose)

/-- The `for record_set in record_set_page['ResourceRecordSets']` loop of
`create_and_submit_change_batch`: builds the list `change_batch['Changes']`
and the verbose dumps. -/
def build_change_batch (verbose : Bool) : List RecordSet → List Change × List LogLine
  | [] => ([], [])
  | record_set :: rest =>
      let vlog := if verbose then [LogLine.dumpRecordSet record_set] else []
      let r := build_change_batch verbose rest
      if record_set.rtype ≠ "NS" ∧ record_set.rtype ≠ "SOA" then
        ({ action := "DELETE", resourceRecordSet := record_set } :: r.1, vlog ++ r.2)
      else
        (r.1, vlog ++ r.2)

/-- Embedding of `create_and_submit_change_batch`: submit one
`change_resource_record_sets` call per page when the filtered batch is
nonempty; always print the page's `record_count`. -/
def create_and_submit_change_batch (env : Env) (zone_id : String)
    (record_set_page : List RecordSet) (verbose : Bool) : List ApiCall × List LogLine :=
  let r := build_change_batch verbose record_set_page
  if r.1.isEmpty then
    ([], r.2 ++ [LogLine.recordsDeleted 0])
  else
    let status := env.changeBatchStatus zone_id r.1
    if status ≠ 200 then
      ([ApiCall.changeResourceRecordSets zone_id r.1],
       r.2 ++ [LogLine.failedRecordSetBatch r.1, LogLine.recordsDeleted 0])
    else
      ([ApiCall.changeResourceRecordSets zone_id r.1],
       r.2 ++ [LogLine.recordsDeleted r.1.length])

/-- The page loop of `get_and_delete_hostedzone_recordsets`. -/
def record_set_pages_loop (env : Env) (zone_id : String) (verbose : Bool) :
    List (List RecordSet) → List ApiCall × List LogLine
  | [] => ([], [])
  | page :: rest =>
      let vlog := if verbose then [LogLine.dumpRecordSetPage page] else []
      let r1 := create_and_submit_change_batch env zone_id page verbose
      let r2 := record_set_pages_loop env zone_id verbose rest
      (r1.1 ++ r2.1, vlog ++ r1.2 ++ r2.2)

/-- Embedding of `get_and_delete_hostedzone_recordsets`: start the
record-set listing for the zone, then process each page. -/
def get_and_delete_hostedzone_recordsets (env : Env) (zone : HostedZone) (verbose : Bool) :
    List ApiCall × List LogLine :=
  let r := record_set_pages_loop env zone.id verbose (env.recordSetPages zone.id)
  (ApiCall.listResourceRecordSets zone.id :: r.1, r.2)

/-- The body of the `for zone in zone_page['HostedZones']` loop of
`get_and_delete_route53_zones`: conditionally purge the record sets, then
delete the zone unconditionally.  Returns (calls, logs, tally increment). -/
def process_zone (env : Env) (verbose : Bool) (zone : HostedZone) :
    List ApiCall × List LogLine × Nat :=
  let vlog := if verbose then [LogLine.dumpZone zone] else []
  let purge :=
    if zone.resourceRecordSetCount > 2 then
      get_and_delete_hostedzone_recordsets env zone verbose
    else ([], [])
  let status := env.deleteZoneStatus zone.id
  let failLog := if status ≠ 200 then [LogLine.failedZone zone.id] else []
  let inc := if status = 200 then 1 else 0
  (purge.1 ++ [ApiCall.deleteHostedZone zone.id], vlog ++ purge.2 ++ failLog, inc)

/-- The inner zone loop of `get_and_delete_route53_zones`. -/
def zones_loop (env : Env) (verbose : Bool) :
    List HostedZone → List ApiCall × List LogLine × Nat
  | [] => ([], [], 0)
  | zone :: rest =>
      let r1 := process_zone env verbose zone
      let r2 := zones_loop env verbose rest
      (r1.1 ++ r2.1, r1.2.1 ++ r2.2.1, r1.2.2 + r2.2.2)

/-- The outer zone-page loop of `get_and_delete_route53_zones`. -/
def zone_pages_loop (env : Env) (verbose : Bool) :
    List (List HostedZone) → List ApiCall × List LogLine × Nat
  | [] => ([], [], 0)
  | page :: rest =>
      let vlog := if verbose then [LogLine.dumpZonePage page] else []
      let r1 := zones_loop env verbose page
      let r2 := zone_pages_loop env verbose rest
      (r1.1 ++ r2.1, vlog ++ r1.2.1 ++ r2.2.1, r1.2.2 + r2.2.2)

/-- Embedding of `get_and_delete_route53_zones`. -/
def get_and_delete_route53_zones (env : Env) (verbose : Bool) : RunOut :=
  match env.zonePages with
  | Except.error e => ⟨[ApiCall.listHostedZones], [], some e⟩
  | Except.ok pages =>
      let body := zone_pages_loop env verbose pages
      ⟨ApiCall.listHostedZones :: body.1,
       body.2.1 ++ [LogLine.zonesDeleted body.2.2], none⟩

/-- Embedding of `main`: assume the role, announce the account, then clean
buckets, snapshots+volumes, and zones, in that order.  An uncaught exception
anywhere stops the rest of the run. -/
def main (env : Env) (account_id : Nat) (verbose : Bool) : RunOut :=
  RunOut.seq (assume_role env account_id verbose)
    (RunOut.seq ⟨[], [LogLine.deletingResources account_id], none⟩
      (RunOut.seq (get_and_delete_s3_buckets env verbose)
        (RunOut.seq (get_and_delete_volumes_and_snapshots env verbose)
          (get_and_delete_route53_zones env verbose))))

/-- The stage of the run each API call belongs to, in the fixed order the
orchestrator runs them. -/
def ApiCall.phase : ApiCall → Nat
  | .getCallerIdentity => 0
  | .assumeRole _ _ _ => 0
  | .listBuckets => 1
  | .deleteBucket _ => 1
  | .describeSnapshots _ _ => 2
  | .deleteSnapshot _ => 2
  | .describeVolumes => 3
  | .deleteVolume _ => 3
  | .listHostedZones => 4
  | .listResourceRecordSets _ => 4
  | .changeResourceRecordSets _ _ => 4
  | .deleteHostedZone _ => 4

/-- Whether a call mutates the account (a delete or a record-set change). -/
def ApiCall.isMutating : ApiCall → Bool
  | .deleteBucket _ => true
  | .deleteSnapshot _ => true
  | .deleteVolume _ => true
  | .changeResourceRecordSets _ _ => true
  | .deleteHostedZone _ => true
  | _ => false

/-- Whether a call is a snapshot delete. -/
def ApiCall.isDeleteSnapshot : ApiCall → Bool
  | .deleteSnapshot _ => true
  | _ => false

/-- Whether a call is a volume delete. -/
def ApiCall.isDeleteVolume : ApiCall → Bool
  | .deleteVolume _ => true
  | _ => false

/-- Whether a call is a hosted-zone delete. -/
def ApiCall.isDeleteHostedZone : ApiCall → Bool
  | .deleteHostedZone _ => true
  | _ => false

/-- Whether a call is a record-set change-batch submission. -/
def ApiCall.isChangeResourceRecordSets : ApiCall → Bool
  | .changeResourceRecordSets _ _ => true
  | _ => false

/-- Whether a printed line is one of the summary tallies. -/
def LogLine.isTally : LogLine → Bool
  | .bucketsDeleted _ => true
  | .snapshotsDeleted _ => true
  | .volumesDeleted _ => true
  | .recordsDeleted _ => true
  | .zonesDeleted _ => true
  | _ => false

/-- The predicate `create_and_submit_change_batch` uses to keep a record set
in the change batch: every type except `NS` and `SOA`. -/
def deletableRecord (rs : RecordSet) : Bool :=
  !(rs.rtype == "NS") && !(rs.rtype == "SOA")

/-- The change entry built for one kept record set. -/
def mkDeleteChange (rs : RecordSet) : Change :=
  { action := "DELETE", resourceRecordSet := rs }

/-- The part of `main` after the role assumption (definitionally the tail of
`main`). -/
def mainRest (env : Env) (account_id : Nat) (verbose : Bool) : RunOut :=
  RunOut.seq ⟨[], [LogLine.deletingResources account_id], none⟩
    (RunOut.seq (get_and_delete_s3_buckets env verbose)
      (RunOut.seq (get_and_delete_volumes_and_snapshots env verbose)
        (get_and_delete_route53_zones env verbose)))

/-- The per-page record count the script reports for one record-set page:
the page's batch size when the batch was nonempty and accepted, else 0. -/
def pageRecordTally (env : Env) (zid : String) (page : List RecordSet) : Nat :=
  if page.filter deletableRecord ≠ [] ∧
      env.changeBatchStatus zid ((page.filter deletableRecord).map mkDeleteChange) = 200
  then (page.filter deletableRecord).length else 0

/-- The tally lines one zone's processing prints (one per record-set page
when the purge runs, none otherwise). -/
def zoneTallyLogs (env : Env) (z : HostedZone) : List LogLine :=
  if z.resourceRecordSetCount > 2
  then (env.recordSetPages z.id).map
    (fun page => LogLine.recordsDeleted (pageRecordTally env z.id page))
  else []

/-! Concrete environments used to instantiate the theorems -/

/-- A small populated account: two buckets (one delete fails), five snapshots
over two pages (one fails), two volumes over two pages, and two hosted zones
(one with five record sets, one with only the two structural ones). -/
def envW : Env where
  assumeRoleResult := Except.ok ()
  bucketsResponse := Except.ok [{ name := "b1" }, { name := "b2" }]
  deleteBucketStatus := fun b => if b.name == "b1" then 200 else 403
  snapshotPages := Except.ok [[{ id := "s1" }, { id := "s2" }, { id := "s3" }],
    [{ id := "s4" }, { id := "s5" }]]
  deleteSnapshotStatus := fun i => if i == "s4" then 500 else 200
  volumePages := Except.ok [[{ id := "v1" }], [{ id := "v2" }]]
  deleteVolumeStatus := fun _ => 200
  zonePages := Except.ok [[{ id := "z1", resourceRecordSetCount := 5 },
    { id := "z2", resourceRecordSetCount := 2 }]]
  recordSetPages := fun i =>
    if i == "z1" then
      [[{ name := "z1.example.com", rtype := "NS", data := "ns1" },
        { name := "z1.example.com", rtype := "SOA", data := "soa" },
        { name := "a.z1.example.com", rtype := "A", data := "10.0.0.1" },
        { name := "b.z1.example.com", rtype := "A", data := "10.0.0.2" },
        { name := "c.z1.example.com", rtype := "A", data := "10.0.0.3" }]]
    else []
  changeBatchStatus := fun _ _ => 200
  deleteZoneStatus := fun _ => 200

/-- An account whose S3 bucket listing raises a transport fault while the
other resource types do have items to delete. -/
def envC2 : Env where
  assumeRoleResult := Except.ok ()
  bucketsResponse := Except.error (AwsError.fatal "s3 listing transport fault")
  deleteBucketStatus := fun _ => 200
  snapshotPages := Except.ok [[{ id := "s1" }]]
  deleteSnapshotStatus := fun _ => 200
  volumePages := Except.ok [[{ id := "v1" }]]
  deleteVolumeStatus := fun _ => 200
  zonePages := Except.ok [[{ id := "z1", resourceRecordSetCount := 3 }]]
  recordSetPages := fun _ => [[{ name := "a.z1", rtype := "A", data := "10.0.0.1" }]]
  changeBatchStatus := fun _ _ => 200
  deleteZoneStatus := fun _ => 200

/-- An account whose role assumption is denied. -/
def envRoleFail : Env where
  assumeRoleResult := Except.error (AwsError.fatal "assume role denied")
  bucketsResponse := Except.ok []
  deleteBucketStatus := fun _ => 200
  snapshotPages := Except.ok []
  deleteSnapshotStatus := fun _ => 200
  volumePages := Except.ok []
  deleteVolumeStatus := fun _ => 200
  zonePages := Except.ok []
  recordSetPages := fun _ => []
  changeBatchStatus := fun _ _ => 200
  deleteZoneStatus := fun _ => 200

/-- An account whose snapshot listing raises after the buckets were
cleaned; volumes and zones still have items. -/
def envSnapFail : Env where
  assumeRoleResult := Except.ok ()
  bucketsResponse := Except.ok [{ name := "b" }]
  deleteBucketStatus := fun _ => 200
  snapshotPages := Except.error (AwsError.fatal "snapshot listing fault")
  deleteSnapshotStatus := fun _ => 200
  volumePages := Except.ok [[{ id := "v1" }]]
  deleteVolumeStatus := fun _ => 200
  zonePages := Except.ok [[{ id := "z1", resourceRecordSetCount := 3 }]]
  recordSetPages := fun _ => [[{ name := "a.z1", rtype := "A", data := "10.0.0.1" }]]
  changeBatchStatus := fun _ _ => 200
  deleteZoneStatus := fun _ => 200

/-- An account whose volume listing raises; the zones still have items. -/
def envVolFail : Env where
  assumeRoleResult := Except.ok ()
  bucketsResponse := Except.ok []
  deleteBucketStatus := fun _ => 200
  snapshotPages := Except.ok [[{ id := "s1" }]]
  deleteSnapshotStatus := fun _ => 200
  volumePages := Except.error (AwsError.fatal "volume listing fault")
  deleteVolumeStatus := fun _ => 200
  zonePages := Except.ok [[{ id := "z1", resourceRecordSetCount := 3 }]]
  recordSetPages := fun _ => [[{ name := "a.z1", rtype := "A", data := "10.0.0.1" }]]
  changeBatchStatus := fun _ _ => 200
  deleteZoneStatus := fun _ => 200

/-- An account whose hosted-zone listing raises. -/
def envZoneFail : Env where
  assumeRoleResult := Except.ok ()
  bucketsResponse := Except.ok []
  deleteBucketStatus := fun _ => 200
  snapshotPages := Except.ok []
  deleteSnapshotStatus := fun _ => 200
  volumePages := Except.ok [[{ id := "v1" }]]
  deleteVolumeStatus := fun _ => 200
  zonePages := Except.error (AwsError.fatal "zone listing fault")
  recordSetPages := fun _ => []
  changeBatchStatus := fun _ _ => 200
  deleteZoneStatus := fun _ => 200

/-- The hosted zone of `envC7`. -/
def zoneC7 : HostedZone := { id := "zz", resourceRecordSetCount := 4 }

/-- An account with one hosted zone whose record sets arrive on two pages of
one deletable record each; every call succeeds. -/
def envC7 : Env where
  assumeRoleResult := Except.ok ()
  bucketsResponse := Except.ok []
  deleteBucketStatus := fun _ => 200
  snapshotPages := Except.ok []
  deleteSnapshotStatus := fun _ => 200
  volumePages := Except.ok []
  deleteVolumeStatus := fun _ => 200
  zonePages := Except.ok [[zoneC7]]
  recordSetPages := fun _ =>
    [[{ name := "r1.zz", rtype := "A", data := "10.0.0.1" }],
     [{ name := "r2.zz", rtype := "A", data := "10.0.0.2" }]]
  changeBatchStatus := fun _ _ => 200
  deleteZoneStatus := fun _ => 200

/-- An account with exactly one S3 bucket named b and nothing else. -/
def envC8 : Env where
  assumeRoleResult := Except.ok ()
  bucketsResponse := Except.ok [{ name := "b" }]
  deleteBucketStatus := fun _ => 200
  snapshotPages := Except.ok []
  deleteSnapshotStatus := fun _ => 200
  volumePages := Except.ok []
  deleteVolumeStatus := fun _ => 200
  zonePages := Except.ok []
  recordSetPages := fun _ => []
  changeBatchStatus := fun _ _ => 200
  deleteZoneStatus := fun _ => 200

/-- An already-emptied account: every listing succeeds and returns no
items. -/
def envEmpty : Env where
  assumeRoleResult := Except.ok ()
  bucketsResponse := Except.ok []
  deleteBucketStatus := fun _ => 200
  snapshotPages := Except.ok []
  deleteSnapshotStatus := fun _ => 200
  volumePages := Except.ok []
  deleteVolumeStatus := fun _ => 200
  zonePages := Except.ok []
  recordSetPages := fun _ => []
  changeBatchStatus := fun _ _ => 200
  deleteZoneStatus := fun _ => 200

/-! Loop characterisation lemmas -/

theorem delete_buckets_loop_calls (env : Env) (v : Bool) (bs : List Bucket) :
    (delete_buckets_loop env v bs).1 = bs.map (fun b => ApiCall.deleteBucket (BucketArg.record b)) := by
  induction bs with
  | nil => rfl
  | cons b rest ih => simp [delete_buckets_loop, ih]

theorem delete_buckets_loop_count (env : Env) (v : Bool) (bs : List Bucket) :
    (delete_buckets_loop env v bs).2.2 = bs.countP (fun b => env.deleteBucketStatus b == 200) := by
  induction bs with
  | nil => rfl
  | cons b rest ih =>
      by_cases h : env.deleteBucketStatus b = 200 <;>
        simp [delete_buckets_loop, ih, List.countP_cons, h, Nat.add_comm]

theorem delete_buckets_loop_faillog (env : Env) (v : Bool) (bs : List Bucket)
    (b : Bucket) (hb : b ∈ bs) (hfail : env.deleteBucketStatus b ≠ 200) :
    LogLine.failedBucket b ∈ (delete_buckets_loop env v bs).2.1 := by
  induction bs with
  | nil => cases hb
  | cons x rest ih =>
      rcases List.mem_cons.mp hb with rfl | hmem
      · simp [delete_buckets_loop, hfail]
      · simp [delete_buckets_loop, ih hmem]

theorem delete_snapshots_loop_calls (env : Env) (v : Bool) (ss : List Snapshot) :
    (delete_snapshots_loop env v ss).1 = ss.map (fun s => ApiCall.deleteSnapshot s.id) := by
  induction ss with
  | nil => rfl
  | cons s rest ih => simp [delete_snapshots_loop, ih]

theorem delete_snapshots_loop_count (env : Env) (v : Bool) (ss : List Snapshot) :
    (delete_snapshots_loop env v ss).2.2
      = ss.countP (fun s => env.deleteSnapshotStatus s.id == 200) := by
  induction ss with
  | nil => rfl
  | cons s rest ih =>
      by_cases h : env.deleteSnapshotStatus s.id = 200 <;>
        simp [delete_snapshots_loop, ih, List.countP_cons, h, Nat.add_comm]

theorem delete_snapshots_loop_faillog (env : Env) (v : Bool) (ss : List Snapshot)
    (s : Snapshot) (hs : s ∈ ss) (hfail : env.deleteSnapshotStatus s.id ≠ 200) :
    LogLine.failedSnapshot s.id ∈ (delete_snapshots_loop env v ss).2.1 := by
  induction ss with
  | nil => cases hs
  | cons x rest ih =>
      rcases List.mem_cons.mp hs with rfl | hmem
      · simp [delete_snapshots_loop, hfail]
      · simp [delete_snapshots_loop, ih hmem]

theorem snapshot_pages_loop_calls (env : Env) (v : Bool) (ps : List (List Snapshot)) :
    (snapshot_pages_loop env v ps).1 = ps.flatten.map (fun s => ApiCall.deleteSnapshot s.id) := by
  induction ps with
  | nil => rfl
  | cons p rest ih => simp [snapshot_pages_loop, ih, delete_snapshots_loop_calls]

theorem snapshot_pages_loop_count (env : Env) (v : Bool) (ps : List (List Snapshot)) :
    (snapshot_pages_loop env v ps).2.2
      = ps.flatten.countP (fun s => env.deleteSnapshotStatus s.id == 200) := by
  induction ps with
  | nil => rfl
  | cons p rest ih => simp [snapshot_pages_loop, ih, delete_snapshots_loop_count, List.countP_append]

theorem snapshot_pages_loop_faillog (env : Env) (v : Bool) (ps : List (List Snapshot))
    (s : Snapshot) (hs : s ∈ ps.flatten) (hfail : env.deleteSnapshotStatus s.id ≠ 200) :
    LogLine.failedSnapshot s.id ∈ (snapshot_pages_loop env v ps).2.1 := by
  induction ps with
  | nil => cases hs
  | cons p rest ih =>
      rw [List.flatten_cons, List.mem_append] at hs
      rcases hs with hp | hrest
      · simp [snapshot_pages_loop, delete_snapshots_loop_faillog env v p s hp hfail]
      · simp [snapshot_pages_loop, ih hrest]

theorem delete_volumes_loop_calls (env : Env) (v : Bool) (vs : List Volume) :
    (delete_volumes_loop env v vs).1 = vs.map (fun x => ApiCall.deleteVolume x.id) := by
  induction vs with
  | nil => rfl
  | cons x rest ih => simp [delete_volumes_loop, ih]

theorem delete_volumes_loop_count (env : Env) (v : Bool) (vs : List Volume) :
    (delete_volumes_loop env v vs).2.2
      = vs.countP (fun x => env.deleteVolumeStatus x.id == 200) := by
  induction vs with
  | nil => rfl
  | cons x rest ih =>
      by_cases h : env.deleteVolumeStatus x.id = 200 <;>
        simp [delete_volumes_loop, ih, List.countP_cons, h, Nat.add_comm]

theorem delete_volumes_loop_faillog (env : Env) (v : Bool) (vs : List Volume)
    (x : Volume) (hx : x ∈ vs) (hfail : env.deleteVolumeStatus x.id ≠ 200) :
    LogLine.failedVolume x.id ∈ (delete_volumes_loop env v vs).2.1 := by
  induction vs with
  | nil => cases hx
  | cons y rest ih =>
      rcases List.mem_cons.mp hx with rfl | hmem
      · simp [delete_volumes_loop, hfail]
      · simp [delete_volumes_loop, ih hmem]

theorem volume_pages_loop_calls (env : Env) (v : Bool) (ps : List (List Volume)) :
    (volume_pages_loop env v ps).1 = ps.flatten.map (fun x => ApiCall.deleteVolume x.id) := by
  induction ps with
  | nil => rfl
  | cons p rest ih => simp [volume_pages_loop, ih, delete_volumes_loop_calls]

theorem volume_pages_loop_count (env : Env) (v : Bool) (ps : List (List Volume)) :
    (volume_pages_loop env v ps).2.2
      = ps.flatten.countP (fun x => env.deleteVolumeStatus x.id == 200) := by
  induction ps with
  | nil => rfl
  | cons p rest ih => simp [volume_pages_loop, ih, delete_volumes_loop_count, List.countP_append]

theorem volume_pages_loop_faillog (env : Env) (v : Bool) (ps : List (List Volume))
    (x : Volume) (hx : x ∈ ps.flatten) (hfail : env.deleteVolumeStatus x.id ≠ 200) :
    LogLine.failedVolume x.id ∈ (volume_pages_loop env v ps).2.1 := by
  induction ps with
  | nil => cases hx
  | cons p rest ih =>
      rw [List.flatten_cons, List.mem_append] at hx
      rcases hx with hp | hrest
      · simp [volume_pages_loop, delete_volumes_loop_faillog env v p x hp hfail]
      · simp [volume_pages_loop, ih hrest]

theorem build_change_batch_changes (v : Bool) (page : List RecordSet) :
    (build_change_batch v page).1 = (page.filter deletableRecord).map mkDeleteChange := by
  induction page with
  | nil => rfl
  | cons rs rest ih =>
      by_cases h : rs.rtype ≠ "NS" ∧ rs.rtype ≠ "SOA"
      · have hb : deletableRecord rs = true := by
          simp [deletableRecord, h.1, h.2]
        simp [build_change_batch, h, ih, hb, mkDeleteChange]
      · have hb : deletableRecord rs = false := by
          rw [not_and_or, not_ne_iff, not_ne_iff] at h
          rcases h with h | h <;> simp [deletableRecord, h]

        simp [build_change_batch, h, ih, hb]

theorem create_and_submit_change_batch_calls (env : Env) (zone_id : String)
    (page : List RecordSet) (v : Bool) :
    (create_and_submit_change_batch env zone_id page v).1
      = if page.filter deletableRecord = [] then []
        else [ApiCall.changeResourceRecordSets zone_id
                ((page.filter deletableRecord).map mkDeleteChange)] := by
  by_cases h : page.filter deletableRecord = []
  · simp [create_and_submit_change_batch, build_change_batch_changes, h]
  · have hne : ¬ ((page.filter deletableRecord).map mkDeleteChange).isEmpty = true := by
      simp [List.isEmpty_iff, h]
    by_cases hs : env.changeBatchStatus zone_id ((page.filter deletableRecord).map mkDeleteChange) ≠ 200 <;>
      simp [create_and_submit_change_batch, build_change_batch_changes, hne, h, hs]

theorem create_and_submit_change_batch_last_log (env : Env) (zone_id : String)
    (page : List RecordSet) (v : Bool) :
    (create_and_submit_change_batch env zone_id page v).2.getLast?
      = some (LogLine.recordsDeleted
          (if page.filter deletableRecord ≠ [] ∧
              env.changeBatchStatus zone_id ((page.filter deletableRecord).map mkDeleteChange) = 200
           then (page.filter deletableRecord).length else 0)) := by
  by_cases h : page.filter deletableRecord = []
  · simp [create_and_submit_change_batch, build_change_batch_changes, h, List.getLast?_concat]
  · have hne : ¬ ((page.filter deletableRecord).map mkDeleteChange).isEmpty = true := by
      simp [List.isEmpty_iff, h]
    by_cases hs : env.changeBatchStatus zone_id ((page.filter deletableRecord).map mkDeleteChange) = 200
    · have : (create_and_submit_change_batch env zone_id page v).2
          = (build_change_batch v page).2 ++
              [LogLine.recordsDeleted ((page.filter deletableRecord).map mkDeleteChange).length] := by
        simp [create_and_submit_change_batch, build_change_batch_changes, hne, hs]
      rw [this, List.getLast?_concat]
      simp [h, hs]
    · have : (create_and_submit_change_batch env zone_id page v).2
          = ((build_change_batch v page).2 ++
              [LogLine.failedRecordSetBatch ((page.filter deletableRecord).map mkDeleteChange)]) ++
              [LogLine.recordsDeleted 0] := by
        simp [create_and_submit_change_batch, build_change_batch_changes, hne, hs]
      rw [this, List.getLast?_concat]
      simp [h, hs]

theorem create_and_submit_change_batch_all_change (env : Env) (zone_id : String)
    (page : List RecordSet) (v : Bool) :
    ∀ c ∈ (create_and_submit_change_batch env zone_id page v).1,
      c.isChangeResourceRecordSets = true := by
  intro c hc
  rw [create_and_submit_change_batch_calls] at hc
  by_cases h : page.filter deletableRecord = []
  · simp [h] at hc
  · simp [h] at hc
    simp [hc, ApiCall.isChangeResourceRecordSets]

theorem record_set_pages_loop_all_change (env : Env) (zone_id : String) (v : Bool)
    (pgs : List (List RecordSet)) :
    ∀ c ∈ (record_set_pages_loop env zone_id v pgs).1,
      c.isChangeResourceRecordSets = true := by
  induction pgs with
  | nil => intro c hc; cases hc
  | cons p rest ih =>
      intro c hc
      simp only [record_set_pages_loop, List.mem_append] at hc
      rcases hc with hc | hc
      · exact create_and_submit_change_batch_all_change env zone_id p v c hc
      · exact ih c hc

theorem get_and_delete_hostedzone_recordsets_no_zone_delete (env : Env)
    (zone : HostedZone) (v : Bool) :
    ∀ c ∈ (get_and_delete_hostedzone_recordsets env zone v).1,
      c.isDeleteHostedZone = false := by
  intro c hc
  simp only [get_and_delete_hostedzone_recordsets, List.mem_cons] at hc
  rcases hc with rfl | hc
  · rfl
  · have := record_set_pages_loop_all_change env zone.id v (env.recordSetPages zone.id) c hc
    cases c <;> simp_all [ApiCall.isChangeResourceRecordSets, ApiCall.isDeleteHostedZone]

theorem process_zone_calls (env : Env) (v : Bool) (zone : HostedZone) :
    (process_zone env v zone).1
      = (if zone.resourceRecordSetCount > 2
         then (get_and_delete_hostedzone_recordsets env zone v).1 else [])
        ++ [ApiCall.deleteHostedZone zone.id] := by
  by_cases h : zone.resourceRecordSetCount > 2 <;> simp [process_zone, h]

theorem process_zone_last_call (env : Env) (v : Bool) (zone : HostedZone) :
    (process_zone env v zone).1.getLast? = some (ApiCall.deleteHostedZone zone.id) := by
  rw [process_zone_calls, List.getLast?_concat]

theorem process_zone_dropLast_no_delete (env : Env) (v : Bool) (zone : HostedZone) :
    ∀ c ∈ (process_zone env v zone).1.dropLast, c.isDeleteHostedZone = false := by
  intro c hc
  rw [process_zone_calls, List.dropLast_concat] at hc
  by_cases h : zone.resourceRecordSetCount > 2
  · rw [if_pos h] at hc
    exact get_and_delete_hostedzone_recordsets_no_zone_delete env zone v c hc
  · rw [if_neg h] at hc
    cases hc

theorem process_zone_filter_delete (env : Env) (v : Bool) (zone : HostedZone) :
    (process_zone env v zone).1.filter ApiCall.isDeleteHostedZone
      = [ApiCall.deleteHostedZone zone.id] := by
  rw [process_zone_calls, List.filter_append]
  have hpurge : ((if zone.resourceRecordSetCount > 2
      then (get_and_delete_hostedzone_recordsets env zone v).1 else []).filter
        ApiCall.isDeleteHostedZone) = [] := by
    rw [List.filter_eq_nil_iff]
    intro c hc
    by_cases h : zone.resourceRecordSetCount > 2
    · rw [if_pos h] at hc
      simp [get_and_delete_hostedzone_recordsets_no_zone_delete env zone v c hc]
    · rw [if_neg h] at hc
      cases hc
  rw [hpurge]
  simp [ApiCall.isDeleteHostedZone]

theorem zones_loop_filter_delete (env : Env) (v : Bool) (zs : List HostedZone) :
    (zones_loop env v zs).1.filter ApiCall.isDeleteHostedZone
      = zs.map (fun z => ApiCall.deleteHostedZone z.id) := by
  induction zs with
  | nil => rfl
  | cons z rest ih =>
      simp only [zones_loop, List.map_cons, List.filter_append, ih,
        process_zone_filter_delete]
      rfl

theorem zone_pages_loop_filter_delete (env : Env) (v : Bool) (ps : List (List HostedZone)) :
    (zone_pages_loop env v ps).1.filter ApiCall.isDeleteHostedZone
      = ps.flatten.map (fun z => ApiCall.deleteHostedZone z.id) := by
  induction ps with
  | nil => rfl
  | cons p rest ih =>
      simp [zone_pages_loop, List.filter_append, ih, zones_loop_filter_delete]

theorem zones_loop_count (env : Env) (v : Bool) (zs : List HostedZone) :
    (zones_loop env v zs).2.2 = zs.countP (fun z => env.deleteZoneStatus z.id == 200) := by
  induction zs with
  | nil => rfl
  | cons z rest ih =>
      by_cases h : env.deleteZoneStatus z.id = 200 <;>
        simp [zones_loop, process_zone, ih, List.countP_cons, h, Nat.add_comm]

theorem zone_pages_loop_count (env : Env) (v : Bool) (ps : List (List HostedZone)) :
    (zone_pages_loop env v ps).2.2
      = ps.flatten.countP (fun z => env.deleteZoneStatus z.id == 200) := by
  induction ps with
  | nil => rfl
  | cons p rest ih => simp [zone_pages_loop, ih, zones_loop_count, List.countP_append]

theorem zones_loop_faillog (env : Env) (v : Bool) (zs : List HostedZone)
    (z : HostedZone) (hz : z ∈ zs) (hfail : env.deleteZoneStatus z.id ≠ 200) :
    LogLine.failedZone z.id ∈ (zones_loop env v zs).2.1 := by
  induction zs with
  | nil => cases hz
  | cons x rest ih =>
      rcases List.mem_cons.mp hz with rfl | hmem
      · simp [zones_loop, process_zone, hfail]
      · simp [zones_loop, ih hmem]

theorem zone_pages_loop_faillog (env : Env) (v : Bool) (ps : List (List HostedZone))
    (z : HostedZone) (hz : z ∈ ps.flatten) (hfail : env.deleteZoneStatus z.id ≠ 200) :
    LogLine.failedZone z.id ∈ (zone_pages_loop env v ps).2.1 := by
  induction ps with
  | nil => cases hz
  | cons p rest ih =>
      rw [List.flatten_cons, List.mem_append] at hz
      rcases hz with hp | hrest
      · simp [zone_pages_loop, zones_loop_faillog env v p z hp hfail]
      · simp [zone_pages_loop, ih hrest]

theorem bucket_body_eq (env : Env) (v : Bool) (bs : List Bucket) :
    (if bs.isEmpty then (([], [], 0) : List ApiCall × List LogLine × Nat)
     else delete_buckets_loop env v bs) = delete_buckets_loop env v bs := by
  cases bs <;> simp [delete_buckets_loop]

/-! Claim theorems -/

/-- C1: for each of the four resource-type cleaners and any sequence of
delete-call responses, the printed final tally equals exactly the number of
delete calls whose HTTP status was 200; a delete call is issued for every
listed item (a failure never stops the remaining items), and every failed
item is logged with its identity. -/
theorem C1_deletion_tally (env : Env) (verbose : Bool)
    (bs : List Bucket) (sps : List (List Snapshot)) (vps : List (List Volume))
    (zps : List (List HostedZone))
    (hb : env.bucketsResponse = Except.ok bs)
    (hs : env.snapshotPages = Except.ok sps)
    (hv : env.volumePages = Except.ok vps)
    (hz : env.zonePages = Except.ok zps) :
    ((get_and_delete_s3_buckets env verbose).logs.getLast?
        = some (LogLine.bucketsDeleted (bs.countP fun b => env.deleteBucketStatus b == 200))
      ∧ (get_and_delete_s3_buckets env verbose).calls
        = ApiCall.listBuckets :: bs.map (fun b => ApiCall.deleteBucket (BucketArg.record b))
      ∧ ∀ b ∈ bs, env.deleteBucketStatus b ≠ 200 →
          LogLine.failedBucket b ∈ (get_and_delete_s3_buckets env verbose).logs)
    ∧ ((get_and_delete_snapshots env verbose).logs.getLast?
        = some (LogLine.snapshotsDeleted
            (sps.flatten.countP fun s => env.deleteSnapshotStatus s.id == 200))
      ∧ (get_and_delete_snapshots env verbose).calls
        = ApiCall.describeSnapshots "owner-alias" "self"
            :: sps.flatten.map (fun s => ApiCall.deleteSnapshot s.id)
      ∧ ∀ s ∈ sps.flatten, env.deleteSnapshotStatus s.id ≠ 200 →
          LogLine.failedSnapshot s.id ∈ (get_and_delete_snapshots env verbose).logs)
    ∧ ((get_and_delete_ebs_volumes env verbose).logs.getLast?
        = some (LogLine.volumesDeleted
            (vps.flatten.countP fun x => env.deleteVolumeStatus x.id == 200))
      ∧ (get_and_delete_ebs_volumes env verbose).calls
        = ApiCall.describeVolumes :: vps.flatten.map (fun x => ApiCall.deleteVolume x.id)
      ∧ ∀ x ∈ vps.flatten, env.deleteVolumeStatus x.id ≠ 200 →
          LogLine.failedVolume x.id ∈ (get_and_delete_ebs_volumes env verbose).logs)
    ∧ ((get_and_delete_route53_zones env verbose).logs.getLast?
        = some (LogLine.zonesDeleted
            (zps.flatten.countP fun z => env.deleteZoneStatus z.id == 200))
      ∧ (get_and_delete_route53_zones env verbose).calls.filter ApiCall.isDeleteHostedZone
        = zps.flatten.map (fun z => ApiCall.deleteHostedZone z.id)
      ∧ ∀ z ∈ zps.flatten, env.deleteZoneStatus z.id ≠ 200 →
          LogLine.failedZone z.id ∈ (get_and_delete_route53_zones env verbose).logs) := by
  refine ⟨⟨?_, ?_, ?_⟩, ⟨?_, ?_, ?_⟩, ⟨?_, ?_, ?_⟩, ⟨?_, ?_, ?_⟩⟩
  · rcases bs with _ | ⟨b0, bs0⟩
    · simp [get_and_delete_s3_buckets, hb, List.getLast?_concat]
    · simp [get_and_delete_s3_buckets, hb, List.getLast?_concat, delete_buckets_loop_count]
  · rcases bs with _ | ⟨b0, bs0⟩
    · simp [get_and_delete_s3_buckets, hb]
    · simp [get_and_delete_s3_buckets, hb, delete_buckets_loop_calls]
  · intro b hbmem hfail
    have hne : bs ≠ [] := by rintro rfl; cases hbmem
    have hmem := delete_buckets_loop_faillog env verbose bs b hbmem hfail
    simp [get_and_delete_s3_buckets, hb, hne, hmem]
  · simp [get_and_delete_snapshots, hs, List.getLast?_concat, snapshot_pages_loop_count]
  · simp [get_and_delete_snapshots, hs, snapshot_pages_loop_calls]
  · intro s hsmem hfail
    have hmem := snapshot_pages_loop_faillog env verbose sps s hsmem hfail
    simp [get_and_delete_snapshots, hs, hmem]
  · simp [get_and_delete_ebs_volumes, hv, List.getLast?_concat, volume_pages_loop_count]
  · simp [get_and_delete_ebs_volumes, hv, volume_pages_loop_calls]
  · intro x hxmem hfail
    have hmem := volume_pages_loop_faillog env verbose vps x hxmem hfail
    simp [get_and_delete_ebs_volumes, hv, hmem]
  · simp [get_and_delete_route53_zones, hz, List.getLast?_concat, zone_pages_loop_count]
  · simp only [get_and_delete_route53_zones, hz, List.filter_cons]
    have : ApiCall.isDeleteHostedZone ApiCall.listHostedZones = false := rfl
    simp [this, zone_pages_loop_filter_delete]
  · intro z hzmem hfail
    have hmem := zone_pages_loop_faillog env verbose zps z hzmem hfail
    simp [get_and_delete_route53_zones, hz, hmem]

/-- Witness for C1 on the concrete account `envW`: tallies 1/4/2/2 and the
failed bucket and snapshot are named in the log. -/
theorem C1_deletion_tally_witness :
    (get_and_delete_s3_buckets envW false).logs.getLast? = some (LogLine.bucketsDeleted 1)
    ∧ (get_and_delete_snapshots envW false).logs.getLast? = some (LogLine.snapshotsDeleted 4)
    ∧ (get_and_delete_ebs_volumes envW false).logs.getLast? = some (LogLine.volumesDeleted 2)
    ∧ (get_and_delete_route53_zones envW false).logs.getLast? = some (LogLine.zonesDeleted 2)
    ∧ LogLine.failedBucket { name := "b2" } ∈ (get_and_delete_s3_buckets envW false).logs
    ∧ LogLine.failedSnapshot "s4" ∈ (get_and_delete_snapshots envW false).logs := by
  have h := C1_deletion_tally envW false _ _ _ _ rfl rfl rfl rfl
  refine ⟨?_, ?_, ?_, ?_, ?_, ?_⟩
  · rw [h.1.1]; rfl
  · rw [h.2.1.1]; rfl
  · rw [h.2.2.1.1]; rfl
  · rw [h.2.2.2.1]; rfl
  · exact h.1.2.2 { name := "b2" } (by decide) (by decide)
  · exact h.2.1.2.2 { id := "s4" } (by decide) (by decide)

/-- C3: the change batch built from a record-set page holds exactly one
DELETE entry per record set whose type is neither NS nor SOA, and holds no
NS or SOA entry at all. -/
theorem C3_changebatch_excludes_ns_soa (verbose : Bool) (page : List RecordSet) :
    (build_change_batch verbose page).1 = (page.filter deletableRecord).map mkDeleteChange
    ∧ ((build_change_batch verbose page).1.all fun ch =>
        !(ch.resourceRecordSet.rtype == "NS") && !(ch.resourceRecordSet.rtype == "SOA")
          && (ch.action == "DELETE")) = true := by
  refine ⟨build_change_batch_changes verbose page, ?_⟩
  rw [build_change_batch_changes, List.all_eq_true]
  intro ch hch
  rw [List.mem_map] at hch
  obtain ⟨rs, hrs, rfl⟩ := hch
  rw [List.mem_filter] at hrs
  have h2 := hrs.2
  simp only [deletableRecord, Bool.and_eq_true, Bool.not_eq_eq_eq_not, Bool.not_true] at h2
  simp [mkDeleteChange, h2.1, h2.2]

/-- C4: a zone whose reported record-set count is at most 2 goes straight to
its delete call with no record-set listing; a zone above 2 has its record-set
purge invoked (the listing call is issued). -/
theorem C4_record_count_guard (env : Env) (verbose : Bool) (zone : HostedZone) :
    (zone.resourceRecordSetCount ≤ 2 →
      (process_zone env verbose zone).1 = [ApiCall.deleteHostedZone zone.id])
    ∧ (2 < zone.resourceRecordSetCount →
      ApiCall.listResourceRecordSets zone.id ∈ (process_zone env verbose zone).1) := by
  constructor
  · intro h
    have hn : ¬ zone.resourceRecordSetCount > 2 := by omega
    simp [process_zone, hn]
  · intro h
    rw [process_zone_calls, if_pos h]
    simp [get_and_delete_hostedzone_recordsets]

/-- Witness for C4: in `envW`, zone z2 (count 2) yields only its delete call,
while zone z1 (count 5) gets a record-set listing. -/
theorem C4_record_count_guard_witness :
    (process_zone envW false { id := "z2", resourceRecordSetCount := 2 }).1
      = [ApiCall.deleteHostedZone "z2"]
    ∧ ApiCall.listResourceRecordSets "z1" ∈
        (process_zone envW false { id := "z1", resourceRecordSetCount := 5 }).1 :=
  ⟨(C4_record_count_guard envW false _).1 (by decide),
   (C4_record_count_guard envW false _).2 (by decide)⟩

/-- C5: the zone delete call is issued for every listed zone, in listing
order, whatever the outcome of its change batches (the statement holds for
every environment, failing ones included); and within one zone's processing
the delete call comes last, after the whole purge. -/
theorem C5_purge_before_delete (env : Env) (verbose : Bool)
    (zps : List (List HostedZone)) (hz : env.zonePages = Except.ok zps) :
    ((get_and_delete_route53_zones env verbose).calls.filter ApiCall.isDeleteHostedZone
      = zps.flatten.map (fun z => ApiCall.deleteHostedZone z.id))
    ∧ ∀ zone : HostedZone,
        (process_zone env verbose zone).1.getLast? = some (ApiCall.deleteHostedZone zone.id)
        ∧ ((process_zone env verbose zone).1.dropLast.all
             fun c => !c.isDeleteHostedZone) = true := by
  constructor
  · simp only [get_and_delete_route53_zones, hz, List.filter_cons]
    have hl : ApiCall.isDeleteHostedZone ApiCall.listHostedZones = false := rfl
    simp [hl, zone_pages_loop_filter_delete]
  · intro zone
    refine ⟨process_zone_last_call env verbose zone, ?_⟩
    rw [List.all_eq_true]
    intro c hc
    simp [process_zone_dropLast_no_delete env verbose zone c hc]

/-- Witness for C5 on `envW`: both zones receive a delete call (in order),
and z1's processing ends with its delete call. -/
theorem C5_purge_before_delete_witness :
    (get_and_delete_route53_zones envW false).calls.filter ApiCall.isDeleteHostedZone
      = [ApiCall.deleteHostedZone "z1", ApiCall.deleteHostedZone "z2"]
    ∧ (process_zone envW false { id := "z1", resourceRecordSetCount := 5 }).1.getLast?
      = some (ApiCall.deleteHostedZone "z1") := by
  have h := C5_purge_before_delete envW false _ rfl
  exact ⟨by rw [h.1]; rfl, (h.2 { id := "z1", resourceRecordSetCount := 5 }).1⟩

/-! Phase lemmas: which stage of the run each component's calls belong to -/

theorem assume_role_calls (env : Env) (a : Nat) (v : Bool) :
    (assume_role env a v).calls
      = (if v then [ApiCall.getCallerIdentity] else [])
        ++ [ApiCall.assumeRole
              ("arn:aws:iam::" ++ toString a ++ ":role/OrganizationAccountAccessRole")
              "SREAdminReuseCleanup" 900] := by
  cases hE : env.assumeRoleResult <;> simp [assume_role, hE]

theorem assume_role_phase (env : Env) (a : Nat) (v : Bool) :
    ∀ c ∈ (assume_role env a v).calls, ApiCall.phase c = 0 := by
  intro c hc
  rw [assume_role_calls] at hc
  cases v <;> simp at hc
  · subst hc; rfl
  · rcases hc with rfl | rfl <;> rfl

theorem s3_phase (env : Env) (v : Bool) :
    ∀ c ∈ (get_and_delete_s3_buckets env v).calls, ApiCall.phase c = 1 := by
  intro c hc
  cases hE : env.bucketsResponse with
  | error e =>
      simp [get_and_delete_s3_buckets, hE] at hc
      subst hc; rfl
  | ok bs =>
      rcases bs with _ | ⟨b0, bs0⟩
      · simp [get_and_delete_s3_buckets, hE] at hc
        subst hc; rfl
      · rw [show (get_and_delete_s3_buckets env v).calls
            = ApiCall.listBuckets
              :: (b0 :: bs0).map (fun b => ApiCall.deleteBucket (BucketArg.record b)) by
          simp [get_and_delete_s3_buckets, hE, delete_buckets_loop_calls],
          List.mem_cons] at hc
        rcases hc with rfl | hc
        · rfl
        · rw [List.mem_map] at hc
          obtain ⟨b, _, rfl⟩ := hc
          rfl

theorem snapshots_phase (env : Env) (v : Bool) :
    ∀ c ∈ (get_and_delete_snapshots env v).calls, ApiCall.phase c = 2 := by
  intro c hc
  cases hE : env.snapshotPages with
  | error e =>
      simp [get_and_delete_snapshots, hE] at hc
      subst hc; rfl
  | ok ps =>
      rw [show (get_and_delete_snapshots env v).calls
          = ApiCall.describeSnapshots "owner-alias" "self"
            :: ps.flatten.map (fun s => ApiCall.deleteSnapshot s.id) by
        simp [get_and_delete_snapshots, hE, snapshot_pages_loop_calls],
        List.mem_cons] at hc
      rcases hc with rfl | hc
      · rfl
      · rw [List.mem_map] at hc
        obtain ⟨s, _, rfl⟩ := hc
        rfl

theorem volumes_phase (env : Env) (v : Bool) :
    ∀ c ∈ (get_and_delete_ebs_volumes env v).calls, ApiCall.phase c = 3 := by
  intro c hc
  cases hE : env.volumePages with
  | error e =>
      simp [get_and_delete_ebs_volumes, hE] at hc
      subst hc; rfl
  | ok ps =>
      rw [show (get_and_delete_ebs_volumes env v).calls
          = ApiCall.describeVolumes :: ps.flatten.map (fun x => ApiCall.deleteVolume x.id) by
        simp [get_and_delete_ebs_volumes, hE, volume_pages_loop_calls],
        List.mem_cons] at hc
      rcases hc with rfl | hc
      · rfl
      · rw [List.mem_map] at hc
        obtain ⟨x, _, rfl⟩ := hc
        rfl

theorem record_set_pages_loop_phase (env : Env) (zid : String) (v : Bool)
    (pgs : List (List RecordSet)) :
    ∀ c ∈ (record_set_pages_loop env zid v pgs).1, ApiCall.phase c = 4 := by
  intro c hc
  have h := record_set_pages_loop_all_change env zid v pgs c hc
  cases c <;> simp_all [ApiCall.isChangeResourceRecordSets, ApiCall.phase]

theorem process_zone_phase (env : Env) (v : Bool) (zone : HostedZone) :
    ∀ c ∈ (process_zone env v zone).1, ApiCall.phase c = 4 := by
  intro c hc
  rw [process_zone_calls, List.mem_append] at hc
  rcases hc with hc | hc
  · by_cases h : zone.resourceRecordSetCount > 2
    · rw [if_pos h] at hc
      simp only [get_and_delete_hostedzone_recordsets, List.mem_cons] at hc
      rcases hc with rfl | hc
      · rfl
      · exact record_set_pages_loop_phase env zone.id v _ c hc
    · rw [if_neg h] at hc
      cases hc
  · rw [List.mem_singleton] at hc
    subst hc; rfl

theorem zones_loop_phase (env : Env) (v : Bool) (zs : List HostedZone) :
    ∀ c ∈ (zones_loop env v zs).1, ApiCall.phase c = 4 := by
  induction zs with
  | nil => intro c hc; cases hc
  | cons z rest ih =>
      intro c hc
      simp only [zones_loop, List.mem_append] at hc
      rcases hc with hc | hc
      · exact process_zone_phase env v z c hc
      · exact ih c hc

theorem zone_pages_loop_phase (env : Env) (v : Bool) (ps : List (List HostedZone)) :
    ∀ c ∈ (zone_pages_loop env v ps).1, ApiCall.phase c = 4 := by
  induction ps with
  | nil => intro c hc; cases hc
  | cons p rest ih =>
      intro c hc
      simp only [zone_pages_loop, List.mem_append] at hc
      rcases hc with hc | hc
      · exact zones_loop_phase env v p c hc
      · exact ih c hc

theorem zones_phase (env : Env) (v : Bool) :
    ∀ c ∈ (get_and_delete_route53_zones env v).calls, ApiCall.phase c = 4 := by
  intro c hc
  cases hE : env.zonePages with
  | error e =>
      simp [get_and_delete_route53_zones, hE] at hc
      subst hc; rfl
  | ok ps =>
      simp only [get_and_delete_route53_zones, hE, List.mem_cons] at hc
      rcases hc with rfl | hc
      · rfl
      · exact zone_pages_loop_phase env v ps c hc

theorem seq_calls (a b : RunOut) :
    (RunOut.seq a b).calls = a.calls ∨ (RunOut.seq a b).calls = a.calls ++ b.calls := by
  unfold RunOut.seq
  cases a.err <;> simp

theorem pairwise_phase_of_const (l : List ApiCall) (p : Nat)
    (h : ∀ c ∈ l, ApiCall.phase c = p) :
    (l.map ApiCall.phase).Pairwise (· ≤ ·) := by
  induction l with
  | nil => simp
  | cons a rest ih =>
      rw [List.map_cons]
      refine List.Pairwise.cons ?_ (ih fun c hc => h c (List.mem_cons.mpr (Or.inr hc)))
      intro b hb
      rw [List.mem_map] at hb
      obtain ⟨c, hc, rfl⟩ := hb
      rw [h a (List.mem_cons_self a rest), h c (List.mem_cons.mpr (Or.inr hc))]

theorem pairwise_phase_append (A B : List ApiCall)
    (hA : (A.map ApiCall.phase).Pairwise (· ≤ ·))
    (hB : (B.map ApiCall.phase).Pairwise (· ≤ ·))
    (hAB : ∀ a ∈ A, ∀ b ∈ B, ApiCall.phase a ≤ ApiCall.phase b) :
    ((A ++ B).map ApiCall.phase).Pairwise (· ≤ ·) := by
  rw [List.map_append, List.pairwise_append]
  refine ⟨hA, hB, ?_⟩
  intro x hx y hy
  rw [List.mem_map] at hx hy
  obtain ⟨a, ha, rfl⟩ := hx
  obtain ⟨b, hbm, rfl⟩ := hy
  exact hAB a ha b hbm

theorem seq_sorted (a b : RunOut) (k : Nat)
    (ha : (a.calls.map ApiCall.phase).Pairwise (· ≤ ·))
    (hb : (b.calls.map ApiCall.phase).Pairwise (· ≤ ·))
    (hak : ∀ c ∈ a.calls, ApiCall.phase c ≤ k)
    (hbk : ∀ c ∈ b.calls, k ≤ ApiCall.phase c) :
    (((RunOut.seq a b).calls.map ApiCall.phase).Pairwise (· ≤ ·)) := by
  rcases seq_calls a b with h | h <;> rw [h]
  · exact ha
  · exact pairwise_phase_append _ _ ha hb
      (fun x hx y hy => le_trans (hak x hx) (hbk y hy))

theorem seq_phase_le (a b : RunOut) (k : Nat)
    (hak : ∀ c ∈ a.calls, ApiCall.phase c ≤ k)
    (hbk : ∀ c ∈ b.calls, ApiCall.phase c ≤ k) :
    ∀ c ∈ (RunOut.seq a b).calls, ApiCall.phase c ≤ k := by
  intro c hc
  rcases seq_calls a b with h | h <;> rw [h] at hc
  · exact hak c hc
  · rw [List.mem_append] at hc
    rcases hc with hc | hc
    · exact hak c hc
    · exact hbk c hc

theorem seq_phase_ge (a b : RunOut) (k : Nat)
    (hak : ∀ c ∈ a.calls, k ≤ ApiCall.phase c)
    (hbk : ∀ c ∈ b.calls, k ≤ ApiCall.phase c) :
    ∀ c ∈ (RunOut.seq a b).calls, k ≤ ApiCall.phase c := by
  intro c hc
  rcases seq_calls a b with h | h <;> rw [h] at hc
  · exact hak c hc
  · rw [List.mem_append] at hc
    rcases hc with hc | hc
    · exact hak c hc
    · exact hbk c hc

theorem phase_of_isDeleteSnapshot (c : ApiCall) (h : c.isDeleteSnapshot = true) :
    ApiCall.phase c = 2 := by
  cases c <;> simp_all [ApiCall.isDeleteSnapshot, ApiCall.phase]

theorem phase_of_isDeleteVolume (c : ApiCall) (h : c.isDeleteVolume = true) :
    ApiCall.phase c = 3 := by
  cases c <;> simp_all [ApiCall.isDeleteVolume, ApiCall.phase]

theorem main_phase_sorted (env : Env) (a : Nat) (v : Bool) :
    ((main env a v).calls.map ApiCall.phase).Pairwise (· ≤ ·) := by
  have hA := assume_role_phase env a v
  have hB := s3_phase env v
  have hS := snapshots_phase env v
  have hV := volumes_phase env v
  have hZ := zones_phase env v
  have sA := pairwise_phase_of_const _ 0 hA
  have sB := pairwise_phase_of_const _ 1 hB
  have sS := pairwise_phase_of_const _ 2 hS
  have sV := pairwise_phase_of_const _ 3 hV
  have sZ := pairwise_phase_of_const _ 4 hZ
  have sVS : ((get_and_delete_volumes_and_snapshots env v).calls.map ApiCall.phase).Pairwise
      (· ≤ ·) := by
    unfold get_and_delete_volumes_and_snapshots
    exact seq_sorted _ _ 3 sS sV (fun c hc => by rw [hS c hc]; omega)
      (fun c hc => by rw [hV c hc])
  have hVSle : ∀ c ∈ (get_and_delete_volumes_and_snapshots env v).calls,
      ApiCall.phase c ≤ 3 := by
    unfold get_and_delete_volumes_and_snapshots
    exact seq_phase_le _ _ 3 (fun c hc => by rw [hS c hc]; omega)
      (fun c hc => by rw [hV c hc])
  have hVSge : ∀ c ∈ (get_and_delete_volumes_and_snapshots env v).calls,
      2 ≤ ApiCall.phase c := by
    unfold get_and_delete_volumes_and_snapshots
    exact seq_phase_ge _ _ 2 (fun c hc => by rw [hS c hc])
      (fun c hc => by rw [hV c hc]; omega)
  have sVSZ := seq_sorted (get_and_delete_volumes_and_snapshots env v)
    (get_and_delete_route53_zones env v) 4 sVS sZ
    (fun c hc => le_trans (hVSle c hc) (by omega)) (fun c hc => by rw [hZ c hc])
  have hVSZge : ∀ c ∈ (RunOut.seq (get_and_delete_volumes_and_snapshots env v)
      (get_and_delete_route53_zones env v)).calls, 2 ≤ ApiCall.phase c :=
    seq_phase_ge _ _ 2 hVSge (fun c hc => by rw [hZ c hc]; omega)
  have sBVSZ := seq_sorted (get_and_delete_s3_buckets env v)
    (RunOut.seq (get_and_delete_volumes_and_snapshots env v)
      (get_and_delete_route53_zones env v)) 2 sB sVSZ
    (fun c hc => by rw [hB c hc]; omega) hVSZge
  have hBVSZge : ∀ c ∈ (RunOut.seq (get_and_delete_s3_buckets env v)
      (RunOut.seq (get_and_delete_volumes_and_snapshots env v)
        (get_and_delete_route53_zones env v))).calls, 1 ≤ ApiCall.phase c :=
    seq_phase_ge _ _ 1 (fun c hc => by rw [hB c hc])
      (fun c hc => le_trans (by omega) (hVSZge c hc))
  have sP := seq_sorted (⟨[], [LogLine.deletingResources a], none⟩ : RunOut)
    (RunOut.seq (get_and_delete_s3_buckets env v)
      (RunOut.seq (get_and_delete_volumes_and_snapshots env v)
        (get_and_delete_route53_zones env v))) 1 (by simp) sBVSZ
    (fun c hc => absurd hc (List.not_mem_nil c)) hBVSZge
  have hPge : ∀ c ∈ (RunOut.seq (⟨[], [LogLine.deletingResources a], none⟩ : RunOut)
      (RunOut.seq (get_and_delete_s3_buckets env v)
        (RunOut.seq (get_and_delete_volumes_and_snapshots env v)
          (get_and_delete_route53_zones env v)))).calls, 0 ≤ ApiCall.phase c :=
    fun c _ => Nat.zero_le _
  unfold main
  exact seq_sorted _ _ 0 sA sP (fun c hc => by rw [hA c hc]) hPge

/-- C6: the orchestrator's calls follow the fixed stage order
assume-role, buckets, snapshots, volumes, zones: the sequence of call phases
is monotone, and in particular every snapshot delete call precedes every
volume delete call in the trace. -/
theorem C6_fixed_order (env : Env) (account_id : Nat) (verbose : Bool) :
    (((main env account_id verbose).calls.map ApiCall.phase).Pairwise (· ≤ ·))
    ∧ ∀ (i j : Nat) (hi : i < (main env account_id verbose).calls.length)
        (hj : j < (main env account_id verbose).calls.length),
        ((main env account_id verbose).calls.get ⟨i, hi⟩).isDeleteSnapshot = true →
        ((main env account_id verbose).calls.get ⟨j, hj⟩).isDeleteVolume = true →
        i < j := by
  refine ⟨main_phase_sorted env account_id verbose, ?_⟩
  intro i j hi hj hsnap hvol
  have h2 := phase_of_isDeleteSnapshot _ hsnap
  have h3 := phase_of_isDeleteVolume _ hvol
  by_contra hij
  push_neg at hij
  rcases Nat.lt_or_eq_of_le hij with hji | heq
  · have hs := main_phase_sorted env account_id verbose
    rw [List.pairwise_iff_get] at hs
    have hle := hs ⟨j, by simpa using hj⟩ ⟨i, by simpa using hi⟩ (Fin.mk_lt_mk.mpr hji)
    simp only [List.get_eq_getElem, List.getElem_map] at hle
    simp only [List.get_eq_getElem] at h2 h3
    rw [h2, h3] at hle
    omega
  · subst heq
    simp only [List.get_eq_getElem] at h2 h3
    rw [h2] at h3
    omega

/-- Witness for C6 on the populated account `envW`: the phase trace of the
whole run is monotone, and the first snapshot delete (index 5) precedes the
first volume delete (index 11). -/
theorem C6_fixed_order_witness :
    ((main envW 1 false).calls.map ApiCall.phase).Pairwise (· ≤ ·) ∧ (5 : Nat) < 11 :=
  ⟨(C6_fixed_order envW 1 false).1,
   (C6_fixed_order envW 1 false).2 5 11 (by decide) (by decide) (by decide) (by decide)⟩

/-- C2 counterexample: in `envC2` the bucket listing raises, and contrary to
the claim the orchestrator does NOT run the subsequent resource types: the
run aborts with the error, and no snapshot, volume or zone call — not even
their listings — is ever issued. -/
theorem C2_counterexample :
    (main envC2 1 false).err = some (AwsError.fatal "s3 listing transport fault")
    ∧ ApiCall.describeSnapshots "owner-alias" "self" ∉ (main envC2 1 false).calls
    ∧ ApiCall.describeVolumes ∉ (main envC2 1 false).calls
    ∧ ApiCall.listHostedZones ∉ (main envC2 1 false).calls
    ∧ ApiCall.deleteSnapshot "s1" ∉ (main envC2 1 false).calls := by
  refine ⟨rfl, ?_, ?_, ?_, ?_⟩ <;> decide

theorem record_set_pages_loop_change_count (env : Env) (zid : String) (v : Bool)
    (pgs : List (List RecordSet)) :
    ((record_set_pages_loop env zid v pgs).1.filter ApiCall.isChangeResourceRecordSets).length
      = (pgs.filter fun pg => !(pg.filter deletableRecord).isEmpty).length := by
  induction pgs with
  | nil => rfl
  | cons p rest ih =>
      simp only [record_set_pages_loop, List.filter_append, List.length_append, ih]
      rw [create_and_submit_change_batch_calls]
      by_cases h : p.filter deletableRecord = []
      · simp [h, List.filter_cons]
      · have hne : (!(p.filter deletableRecord).isEmpty) = true := by
          simp [List.isEmpty_iff, h]
        simp [h, hne, ApiCall.isChangeResourceRecordSets, List.filter_cons, Nat.add_comm]

/-- C7 counterexample: zone zz of `envC7` has two deletable records arriving
on two pages and every submission succeeds; the purger issues two separate
change requests, not a single one for the whole zone, and never reports the
zone total 2 — it prints the per-page count 1 twice. -/
theorem C7_counterexample :
    ((get_and_delete_hostedzone_recordsets envC7 zoneC7 false).1.filter
        ApiCall.isChangeResourceRecordSets).length = 2
    ∧ LogLine.recordsDeleted 2 ∉ (get_and_delete_hostedzone_recordsets envC7 zoneC7 false).2
    ∧ (get_and_delete_hostedzone_recordsets envC7 zoneC7 false).2
      = [LogLine.recordsDeleted 1, LogLine.recordsDeleted 1] := by
  refine ⟨?_, ?_, ?_⟩ <;> decide

/-- C7 amended: the purge is per page, not per zone: for each record-set
page, the deletable (non-NS, non-SOA) records of that page go into one
change request, the network call is skipped when the page's filtered batch
is empty, and the reported count is per page — the page's batch size on a
success status and 0 otherwise; across a zone, one change request is issued
per page with a nonempty filtered batch. -/
theorem C7_amended_per_page_purge (env : Env) (zone : HostedZone) (zone_id : String)
    (page : List RecordSet) (verbose : Bool) :
    (page.filter deletableRecord = [] →
      (create_and_submit_change_batch env zone_id page verbose).1 = [])
    ∧ (page.filter deletableRecord ≠ [] →
      (create_and_submit_change_batch env zone_id page verbose).1
        = [ApiCall.changeResourceRecordSets zone_id
            ((page.filter deletableRecord).map mkDeleteChange)])
    ∧ (create_and_submit_change_batch env zone_id page verbose).2.getLast?
      = some (LogLine.recordsDeleted
          (if page.filter deletableRecord ≠ [] ∧
              env.changeBatchStatus zone_id
                ((page.filter deletableRecord).map mkDeleteChange) = 200
           then (page.filter deletableRecord).length else 0))
    ∧ ((get_and_delete_hostedzone_recordsets env zone verbose).1.filter
          ApiCall.isChangeResourceRecordSets).length
      = ((env.recordSetPages zone.id).filter
          fun pg => !(pg.filter deletableRecord).isEmpty).length := by
  refine ⟨?_, ?_, create_and_submit_change_batch_last_log env zone_id page verbose, ?_⟩
  · intro h
    rw [create_and_submit_change_batch_calls, if_pos h]
  · intro h
    rw [create_and_submit_change_batch_calls, if_neg h]
  · simp [get_and_delete_hostedzone_recordsets, List.filter_cons,
      ApiCall.isChangeResourceRecordSets, record_set_pages_loop_change_count]

/-- Witness for the amended C7 on `envC7`: the empty page [] is skipped, the
first page of zone zz yields one request, its reported count is 1, and the
zone issues two requests over its two nonempty pages. -/
theorem C7_amended_per_page_purge_witness :
    (create_and_submit_change_batch envC7 "zz" [] false).1 = []
    ∧ (create_and_submit_change_batch envC7 "zz"
        [{ name := "r1.zz", rtype := "A", data := "10.0.0.1" }] false).1
      = [ApiCall.changeResourceRecordSets "zz"
          [{ action := "DELETE",
             resourceRecordSet := { name := "r1.zz", rtype := "A", data := "10.0.0.1" } }]]
    ∧ ((get_and_delete_hostedzone_recordsets envC7 zoneC7 false).1.filter
          ApiCall.isChangeResourceRecordSets).length = 2 := by
  refine ⟨(C7_amended_per_page_purge envC7 zoneC7 "zz" [] false).1 rfl, ?_, ?_⟩
  · have h := (C7_amended_per_page_purge envC7 zoneC7 "zz"
      [{ name := "r1.zz", rtype := "A", data := "10.0.0.1" }] false).2.1 (by decide)
    rw [h]
    rfl
  · have h := (C7_amended_per_page_purge envC7 zoneC7 "zz" [] false).2.2.2
    rw [h]
    rfl

/-- C8 (reflecting the source as written): with one listed bucket named b,
the delete call's Bucket argument is the whole listing record, which is a
different value from the bucket's name string — the identity the spec says
is passed (and the only argument shape the S3 API accepts). -/
theorem C8_bucket_delete_passes_record :
    (get_and_delete_s3_buckets envC8 false).calls
      = [ApiCall.listBuckets, ApiCall.deleteBucket (BucketArg.record { name := "b" })]
    ∧ ApiCall.deleteBucket (BucketArg.record { name := "b" })
        ≠ ApiCall.deleteBucket (BucketArg.nameOnly "b") := by
  exact ⟨by decide, by decide⟩

theorem s3_err_none (env : Env) (v : Bool) (bs : List Bucket)
    (hb : env.bucketsResponse = Except.ok bs) :
    (get_and_delete_s3_buckets env v).err = none := by
  simp [get_and_delete_s3_buckets, hb]

theorem snapshots_err_none (env : Env) (v : Bool) (ps : List (List Snapshot))
    (hs : env.snapshotPages = Except.ok ps) :
    (get_and_delete_snapshots env v).err = none := by
  simp [get_and_delete_snapshots, hs]

theorem volumes_err_none (env : Env) (v : Bool) (ps : List (List Volume))
    (hv : env.volumePages = Except.ok ps) :
    (get_and_delete_ebs_volumes env v).err = none := by
  simp [get_and_delete_ebs_volumes, hv]

theorem zones_err_none (env : Env) (v : Bool) (ps : List (List HostedZone))
    (hz : env.zonePages = Except.ok ps) :
    (get_and_delete_route53_zones env v).err = none := by
  simp [get_and_delete_route53_zones, hz]

theorem assume_role_err_none (env : Env) (a : Nat) (v : Bool)
    (hok : env.assumeRoleResult = Except.ok ()) :
    (assume_role env a v).err = none := by
  simp [assume_role, hok]

/-- When the role assumption and every listing succeed, the run is the plain
concatenation of all five stages. -/
theorem main_decomp (env : Env) (a : Nat) (v : Bool)
    (hok : env.assumeRoleResult = Except.ok ())
    (hbe : (get_and_delete_s3_buckets env v).err = none)
    (hse : (get_and_delete_snapshots env v).err = none)
    (hve : (get_and_delete_ebs_volumes env v).err = none) :
    main env a v = ⟨(assume_role env a v).calls ++ ((get_and_delete_s3_buckets env v).calls
        ++ ((get_and_delete_snapshots env v).calls ++ (get_and_delete_ebs_volumes env v).calls
        ++ (get_and_delete_route53_zones env v).calls)),
      (assume_role env a v).logs ++ (LogLine.deletingResources a
        :: ((get_and_delete_s3_buckets env v).logs
        ++ ((get_and_delete_snapshots env v).logs ++ (get_and_delete_ebs_volumes env v).logs
        ++ (get_and_delete_route53_zones env v).logs))),
      (get_and_delete_route53_zones env v).err⟩ := by
  have hA := assume_role_err_none env a v hok
  unfold main get_and_delete_volumes_and_snapshots RunOut.seq
  simp [hA, hbe, hse, hve]

theorem zone_pages_loop_calls_of_empty (env : Env) (v : Bool) (ps : List (List HostedZone))
    (h : ps.flatten = []) : (zone_pages_loop env v ps).1 = [] := by
  induction ps with
  | nil => rfl
  | cons p rest ih =>
      rw [List.flatten_cons, List.append_eq_nil] at h
      obtain ⟨hp, hrest⟩ := h
      subst hp
      simp [zone_pages_loop, zones_loop, ih hrest]

/-- C9: a run against an already-emptied account (each listing succeeds and
yields no items) raises no error, issues no mutating call at all, and prints
a zero tally for every resource type — hence a rerun straight after a fully
successful cleanup reports all-zero tallies. -/
theorem C9_empty_account_idempotent (env : Env) (a : Nat) (v : Bool)
    (sps : List (List Snapshot)) (vps : List (List Volume)) (zps : List (List HostedZone))
    (hok : env.assumeRoleResult = Except.ok ())
    (hb : env.bucketsResponse = Except.ok [])
    (hs : env.snapshotPages = Except.ok sps) (hsj : sps.flatten = [])
    (hv : env.volumePages = Except.ok vps) (hvj : vps.flatten = [])
    (hz : env.zonePages = Except.ok zps) (hzj : zps.flatten = []) :
    (main env a v).err = none
    ∧ ((main env a v).calls.all fun c => !c.isMutating) = true
    ∧ LogLine.bucketsDeleted 0 ∈ (main env a v).logs
    ∧ LogLine.snapshotsDeleted 0 ∈ (main env a v).logs
    ∧ LogLine.volumesDeleted 0 ∈ (main env a v).logs
    ∧ LogLine.zonesDeleted 0 ∈ (main env a v).logs := by
  have hd := main_decomp env a v hok (s3_err_none env v _ hb)
    (snapshots_err_none env v _ hs) (volumes_err_none env v _ hv)
  rw [hd]
  have hsl : (snapshot_pages_loop env v sps).2.2 = 0 := by
    rw [snapshot_pages_loop_count, hsj]; rfl
  have hvl : (volume_pages_loop env v vps).2.2 = 0 := by
    rw [volume_pages_loop_count, hvj]; rfl
  have hzl : (zone_pages_loop env v zps).2.2 = 0 := by
    rw [zone_pages_loop_count, hzj]; rfl
  refine ⟨zones_err_none env v _ hz, ?_, ?_, ?_, ?_, ?_⟩
  · rw [List.all_append]
    have h1 : ((assume_role env a v).calls.all fun c => !c.isMutating) = true := by
      rw [assume_role_calls]
      cases v <;> simp [ApiCall.isMutating]
    rw [h1]
    simp only [Bool.true_and, List.all_append]
    have h2 : ((get_and_delete_s3_buckets env v).calls.all fun c => !c.isMutating) = true := by
      simp [get_and_delete_s3_buckets, hb, ApiCall.isMutating]
    have h3 : ((get_and_delete_snapshots env v).calls.all fun c => !c.isMutating) = true := by
      simp [get_and_delete_snapshots, hs, snapshot_pages_loop_calls, hsj, ApiCall.isMutating]
    have h4 : ((get_and_delete_ebs_volumes env v).calls.all fun c => !c.isMutating) = true := by
      simp [get_and_delete_ebs_volumes, hv, volume_pages_loop_calls, hvj, ApiCall.isMutating]
    have h5 : ((get_and_delete_route53_zones env v).calls.all fun c => !c.isMutating) = true := by
      simp [get_and_delete_route53_zones, hz, zone_pages_loop_calls_of_empty env v zps hzj,
        ApiCall.isMutating]
    rw [h2, h3, h4, h5]
    rfl
  · have : LogLine.bucketsDeleted 0 ∈ (get_and_delete_s3_buckets env v).logs := by
      simp [get_and_delete_s3_buckets, hb]
    simp [this]
  · have : LogLine.snapshotsDeleted 0 ∈ (get_and_delete_snapshots env v).logs := by
      simp only [get_and_delete_snapshots, hs]
      rw [show (snapshot_pages_loop env v sps).2.2 = 0 from hsl]
      simp
    simp [this]
  · have : LogLine.volumesDeleted 0 ∈ (get_and_delete_ebs_volumes env v).logs := by
      simp only [get_and_delete_ebs_volumes, hv]
      rw [show (volume_pages_loop env v vps).2.2 = 0 from hvl]
      simp
    simp [this]
  · have : LogLine.zonesDeleted 0 ∈ (get_and_delete_route53_zones env v).logs := by
      simp only [get_and_delete_route53_zones, hz]
      rw [show (zone_pages_loop env v zps).2.2 = 0 from hzl]
      simp
    simp [this]

/-- Witness for C9 on the concrete emptied account `envEmpty`. -/
theorem C9_empty_account_idempotent_witness :
    (main envEmpty 7 false).err = none
    ∧ ((main envEmpty 7 false).calls.all fun c => !c.isMutating) = true
    ∧ LogLine.bucketsDeleted 0 ∈ (main envEmpty 7 false).logs
    ∧ LogLine.snapshotsDeleted 0 ∈ (main envEmpty 7 false).logs
    ∧ LogLine.volumesDeleted 0 ∈ (main envEmpty 7 false).logs
    ∧ LogLine.zonesDeleted 0 ∈ (main envEmpty 7 false).logs :=
  C9_empty_account_idempotent envEmpty 7 false [] [] [] rfl rfl rfl rfl rfl rfl rfl rfl

/-! Which log lines are tallies: closed forms independent of verbosity -/

theorem delete_buckets_loop_tally (env : Env) (v : Bool) (bs : List Bucket) :
    (delete_buckets_loop env v bs).2.1.filter LogLine.isTally = [] := by
  induction bs with
  | nil => rfl
  | cons b rest ih =>
      by_cases h : env.deleteBucketStatus b = 200 <;> cases v <;>
        simp [delete_buckets_loop, List.filter_append, ih, LogLine.isTally, h]

theorem delete_snapshots_loop_tally (env : Env) (v : Bool) (ss : List Snapshot) :
    (delete_snapshots_loop env v ss).2.1.filter LogLine.isTally = [] := by
  induction ss with
  | nil => rfl
  | cons s rest ih =>
      by_cases h : env.deleteSnapshotStatus s.id = 200 <;> cases v <;>
        simp [delete_snapshots_loop, List.filter_append, ih, LogLine.isTally, h]

theorem snapshot_pages_loop_tally (env : Env) (v : Bool) (ps : List (List Snapshot)) :
    (snapshot_pages_loop env v ps).2.1.filter LogLine.isTally = [] := by
  induction ps with
  | nil => rfl
  | cons p rest ih =>
      cases v <;>
        simp [snapshot_pages_loop, List.filter_append, ih, delete_snapshots_loop_tally,
          LogLine.isTally]

theorem delete_volumes_loop_tally (env : Env) (v : Bool) (vs : List Volume) :
    (delete_volumes_loop env v vs).2.1.filter LogLine.isTally = [] := by
  induction vs with
  | nil => rfl
  | cons x rest ih =>
      by_cases h : env.deleteVolumeStatus x.id = 200 <;> cases v <;>
        simp [delete_volumes_loop, List.filter_append, ih, LogLine.isTally, h]

theorem volume_pages_loop_tally (env : Env) (v : Bool) (ps : List (List Volume)) :
    (volume_pages_loop env v ps).2.1.filter LogLine.isTally = [] := by
  induction ps with
  | nil => rfl
  | cons p rest ih =>
      cases v <;>
        simp [volume_pages_loop, List.filter_append, ih, delete_volumes_loop_tally,
          LogLine.isTally]

theorem build_change_batch_tally (v : Bool) (page : List RecordSet) :
    (build_change_batch v page).2.filter LogLine.isTally = [] := by
  induction page with
  | nil => rfl
  | cons rs rest ih =>
      by_cases h : rs.rtype ≠ "NS" ∧ rs.rtype ≠ "SOA" <;> cases v <;>
        simp [build_change_batch, List.filter_append, ih, LogLine.isTally, h]

theorem create_and_submit_change_batch_tally (env : Env) (zid : String)
    (page : List RecordSet) (v : Bool) :
    (create_and_submit_change_batch env zid page v).2.filter LogLine.isTally
      = [LogLine.recordsDeleted (pageRecordTally env zid page)] := by
  by_cases h : page.filter deletableRecord = []
  · have : pageRecordTally env zid page = 0 := by simp [pageRecordTally, h]
    rw [this]
    simp [create_and_submit_change_batch, build_change_batch_changes, h,
      List.filter_append, build_change_batch_tally, LogLine.isTally]
  · have hne : ¬ ((page.filter deletableRecord).map mkDeleteChange).isEmpty = true := by
      simp [List.isEmpty_iff, h]
    by_cases hs : env.changeBatchStatus zid ((page.filter deletableRecord).map mkDeleteChange)
        = 200
    · have : pageRecordTally env zid page = (page.filter deletableRecord).length := by
        simp [pageRecordTally, h, hs]
      rw [this]
      simp [create_and_submit_change_batch, build_change_batch_changes, hne, hs,
        List.filter_append, build_change_batch_tally, LogLine.isTally]
    · have : pageRecordTally env zid page = 0 := by
        simp [pageRecordTally, h, hs]
      rw [this]
      simp [create_and_submit_change_batch, build_change_batch_changes, hne, hs,
        List.filter_append, build_change_batch_tally, LogLine.isTally]

theorem record_set_pages_loop_tally (env : Env) (zid : String) (v : Bool)
    (pgs : List (List RecordSet)) :
    (record_set_pages_loop env zid v pgs).2.filter LogLine.isTally
      = pgs.map (fun page => LogLine.recordsDeleted (pageRecordTally env zid page)) := by
  induction pgs with
  | nil => rfl
  | cons p rest ih =>
      cases v <;>
        simp [record_set_pages_loop, List.filter_append, ih,
          create_and_submit_change_batch_tally, LogLine.isTally]

theorem process_zone_tally (env : Env) (v : Bool) (zone : HostedZone) :
    (process_zone env v zone).2.1.filter LogLine.isTally = zoneTallyLogs env zone := by
  by_cases h : zone.resourceRecordSetCount > 2 <;>
    by_cases hst : env.deleteZoneStatus zone.id = 200 <;> cases v <;>
      simp [process_zone, get_and_delete_hostedzone_recordsets, zoneTallyLogs, h, hst,
        List.filter_append, record_set_pages_loop_tally, LogLine.isTally]

theorem zones_loop_tally (env : Env) (v : Bool) (zs : List HostedZone) :
    (zones_loop env v zs).2.1.filter LogLine.isTally
      = (zs.map (zoneTallyLogs env)).flatten := by
  induction zs with
  | nil => rfl
  | cons z rest ih =>
      simp [zones_loop, List.filter_append, ih, process_zone_tally]

theorem zone_pages_loop_tally (env : Env) (v : Bool) (ps : List (List HostedZone)) :
    (zone_pages_loop env v ps).2.1.filter LogLine.isTally
      = (ps.flatten.map (zoneTallyLogs env)).flatten := by
  induction ps with
  | nil => rfl
  | cons p rest ih =>
      cases v <;>
        simp [zone_pages_loop, List.filter_append, ih, zones_loop_tally, LogLine.isTally]

/-! The verbose flag changes no call and no tally -/

theorem create_and_submit_calls_vindep (env : Env) (zid : String) (page : List RecordSet) :
    (create_and_submit_change_batch env zid page true).1
      = (create_and_submit_change_batch env zid page false).1 := by
  rw [create_and_submit_change_batch_calls, create_and_submit_change_batch_calls]

theorem record_set_pages_loop_calls_vindep (env : Env) (zid : String)
    (pgs : List (List RecordSet)) :
    (record_set_pages_loop env zid true pgs).1 = (record_set_pages_loop env zid false pgs).1 := by
  induction pgs with
  | nil => rfl
  | cons p rest ih =>
      simp only [record_set_pages_loop]
      rw [create_and_submit_calls_vindep, ih]

theorem process_zone_calls_vindep (env : Env) (zone : HostedZone) :
    (process_zone env true zone).1 = (process_zone env false zone).1 := by
  rw [process_zone_calls, process_zone_calls]
  by_cases h : zone.resourceRecordSetCount > 2
  · rw [if_pos h, if_pos h]
    simp only [get_and_delete_hostedzone_recordsets]
    rw [record_set_pages_loop_calls_vindep]
  · rw [if_neg h, if_neg h]

theorem zones_loop_calls_vindep (env : Env) (zs : List HostedZone) :
    (zones_loop env true zs).1 = (zones_loop env false zs).1 := by
  induction zs with
  | nil => rfl
  | cons z rest ih =>
      simp only [zones_loop]
      rw [process_zone_calls_vindep, ih]

theorem zone_pages_loop_calls_vindep (env : Env) (ps : List (List HostedZone)) :
    (zone_pages_loop env true ps).1 = (zone_pages_loop env false ps).1 := by
  induction ps with
  | nil => rfl
  | cons p rest ih =>
      simp only [zone_pages_loop]
      rw [zones_loop_calls_vindep, ih]

theorem s3_vindep (env : Env) :
    (get_and_delete_s3_buckets env true).calls = (get_and_delete_s3_buckets env false).calls
    ∧ (get_and_delete_s3_buckets env true).logs.filter LogLine.isTally
      = (get_and_delete_s3_buckets env false).logs.filter LogLine.isTally
    ∧ (get_and_delete_s3_buckets env true).err = (get_and_delete_s3_buckets env false).err := by
  cases hE : env.bucketsResponse with
  | error e => simp [get_and_delete_s3_buckets, hE]
  | ok bs =>
      refine ⟨?_, ?_, ?_⟩
      · rcases bs with _ | ⟨b0, bs0⟩ <;>
          simp [get_and_delete_s3_buckets, hE, delete_buckets_loop_calls]
      · rcases bs with _ | ⟨b0, bs0⟩ <;>
          simp [get_and_delete_s3_buckets, hE, List.filter_append,
            delete_buckets_loop_tally, delete_buckets_loop_count, LogLine.isTally]
      · simp [get_and_delete_s3_buckets, hE]

theorem snapshots_vindep (env : Env) :
    (get_and_delete_snapshots env true).calls = (get_and_delete_snapshots env false).calls
    ∧ (get_and_delete_snapshots env true).logs.filter LogLine.isTally
      = (get_and_delete_snapshots env false).logs.filter LogLine.isTally
    ∧ (get_and_delete_snapshots env true).err = (get_and_delete_snapshots env false).err := by
  cases hE : env.snapshotPages with
  | error e => simp [get_and_delete_snapshots, hE]
  | ok ps =>
      refine ⟨?_, ?_, ?_⟩
      · simp [get_and_delete_snapshots, hE, snapshot_pages_loop_calls]
      · simp [get_and_delete_snapshots, hE, List.filter_append,
          snapshot_pages_loop_tally, snapshot_pages_loop_count, LogLine.isTally]
      · simp [get_and_delete_snapshots, hE]

theorem volumes_vindep (env : Env) :
    (get_and_delete_ebs_volumes env true).calls = (get_and_delete_ebs_volumes env false).calls
    ∧ (get_and_delete_ebs_volumes env true).logs.filter LogLine.isTally
      = (get_and_delete_ebs_volumes env false).logs.filter LogLine.isTally
    ∧ (get_and_delete_ebs_volumes env true).err = (get_and_delete_ebs_volumes env false).err := by
  cases hE : env.volumePages with
  | error e => simp [get_and_delete_ebs_volumes, hE]
  | ok ps =>
      refine ⟨?_, ?_, ?_⟩
      · simp [get_and_delete_ebs_volumes, hE, volume_pages_loop_calls]
      · simp [get_and_delete_ebs_volumes, hE, List.filter_append,
          volume_pages_loop_tally, volume_pages_loop_count, LogLine.isTally]
      · simp [get_and_delete_ebs_volumes, hE]

theorem zones_vindep (env : Env) :
    (get_and_delete_route53_zones env true).calls = (get_and_delete_route53_zones env false).calls
    ∧ (get_and_delete_route53_zones env true).logs.filter LogLine.isTally
      = (get_and_delete_route53_zones env false).logs.filter LogLine.isTally
    ∧ (get_and_delete_route53_zones env true).err
      = (get_and_delete_route53_zones env false).err := by
  cases hE : env.zonePages with
  | error e => simp [get_and_delete_route53_zones, hE]
  | ok ps =>
      refine ⟨?_, ?_, ?_⟩
      · simp only [get_and_delete_route53_zones, hE]
        rw [zone_pages_loop_calls_vindep]
      · simp [get_and_delete_route53_zones, hE, List.filter_append,
          zone_pages_loop_tally, zone_pages_loop_count, LogLine.isTally]
      · simp [get_and_delete_route53_zones, hE]

theorem seq_vcong (a1 a2 b1 b2 : RunOut)
    (hac : a1.calls = a2.calls)
    (hal : a1.logs.filter LogLine.isTally = a2.logs.filter LogLine.isTally)
    (hae : a1.err = a2.err)
    (hbc : b1.calls = b2.calls)
    (hbl : b1.logs.filter LogLine.isTally = b2.logs.filter LogLine.isTally)
    (hbe : b1.err = b2.err) :
    (RunOut.seq a1 b1).calls = (RunOut.seq a2 b2).calls
    ∧ (RunOut.seq a1 b1).logs.filter LogLine.isTally
      = (RunOut.seq a2 b2).logs.filter LogLine.isTally
    ∧ (RunOut.seq a1 b1).err = (RunOut.seq a2 b2).err := by
  unfold RunOut.seq
  cases h2 : a2.err with
  | some e =>
      rw [hae, h2]
      exact ⟨hac, hal, hae.trans h2⟩
  | none =>
      rw [hae, h2]
      exact ⟨by rw [hac, hbc], by rw [List.filter_append, List.filter_append, hal, hbl],
        hbe⟩

theorem assume_role_tally (env : Env) (a : Nat) (v : Bool) :
    (assume_role env a v).logs.filter LogLine.isTally = [] := by
  cases hE : env.assumeRoleResult <;> cases v <;> simp [assume_role, hE, LogLine.isTally]

theorem assume_role_err_vindep (env : Env) (a : Nat) :
    (assume_role env a true).err = (assume_role env a false).err := by
  cases hE : env.assumeRoleResult <;> simp [assume_role, hE]

theorem mem_seq_calls (a b : RunOut) (c : ApiCall) (hc : c ∈ (RunOut.seq a b).calls) :
    c ∈ a.calls ∨ c ∈ b.calls := by
  rcases seq_calls a b with h | h <;> rw [h] at hc
  · exact Or.inl hc
  · exact List.mem_append.mp hc

theorem seq_none (a b : RunOut) (h : a.err = none) :
    RunOut.seq a b = ⟨a.calls ++ b.calls, a.logs ++ b.logs, b.err⟩ := by
  unfold RunOut.seq
  rw [h]

theorem main_unfold (env : Env) (a : Nat) (v : Bool) :
    main env a v = RunOut.seq (assume_role env a v) (mainRest env a v) := rfl

theorem mainRest_vindep (env : Env) (a : Nat) :
    (mainRest env a true).calls = (mainRest env a false).calls
    ∧ (mainRest env a true).logs.filter LogLine.isTally
      = (mainRest env a false).logs.filter LogLine.isTally
    ∧ (mainRest env a true).err = (mainRest env a false).err := by
  obtain ⟨hb1, hb2, hb3⟩ := s3_vindep env
  obtain ⟨hs1, hs2, hs3⟩ := snapshots_vindep env
  obtain ⟨hv1, hv2, hv3⟩ := volumes_vindep env
  obtain ⟨hz1, hz2, hz3⟩ := zones_vindep env
  have hVS := seq_vcong _ _ _ _ hs1 hs2 hs3 hv1 hv2 hv3
  have hVS1 : (get_and_delete_volumes_and_snapshots env true).calls
      = (get_and_delete_volumes_and_snapshots env false).calls := hVS.1
  have hVS2 : (get_and_delete_volumes_and_snapshots env true).logs.filter LogLine.isTally
      = (get_and_delete_volumes_and_snapshots env false).logs.filter LogLine.isTally :=
    hVS.2.1
  have hVS3 : (get_and_delete_volumes_and_snapshots env true).err
      = (get_and_delete_volumes_and_snapshots env false).err := hVS.2.2
  have hVSZ := seq_vcong _ _ _ _ hVS1 hVS2 hVS3 hz1 hz2 hz3
  have hBVSZ := seq_vcong _ _ _ _ hb1 hb2 hb3 hVSZ.1 hVSZ.2.1 hVSZ.2.2
  exact seq_vcong _ _ _ _ rfl rfl rfl hBVSZ.1 hBVSZ.2.1 hBVSZ.2.2

theorem main_vindep (env : Env) (a : Nat) :
    (main env a true).calls = ApiCall.getCallerIdentity :: (main env a false).calls
    ∧ (main env a true).logs.filter LogLine.isTally
      = (main env a false).logs.filter LogLine.isTally
    ∧ (main env a true).err = (main env a false).err := by
  cases hE : env.assumeRoleResult with
  | error e =>
      have hAe : ∀ v, (assume_role env a v).err = some e := fun v => by
        simp [assume_role, hE]
      have hm : ∀ v, main env a v = assume_role env a v := fun v => by
        rw [main_unfold]
        unfold RunOut.seq
        rw [hAe v]
      refine ⟨?_, ?_, ?_⟩ <;> rw [hm true, hm false]
      · rw [assume_role_calls, assume_role_calls]
        simp
      · rw [assume_role_tally, assume_role_tally]
      · rw [hAe true, hAe false]
  | ok u =>
      have hAe : ∀ v, (assume_role env a v).err = none := fun v => by
        simp [assume_role, hE]
      obtain ⟨hr1, hr2, hr3⟩ := mainRest_vindep env a
      refine ⟨?_, ?_, ?_⟩ <;>
        rw [main_unfold, main_unfold, seq_none _ _ (hAe true), seq_none _ _ (hAe false)]
      · dsimp only
        rw [hr1, assume_role_calls, assume_role_calls]
        simp
      · dsimp only
        rw [List.filter_append, List.filter_append, assume_role_tally, assume_role_tally,
          hr2]
      · exact hr3

theorem main_false_no_gci (env : Env) (a : Nat) :
    ∀ c ∈ (main env a false).calls, (c == ApiCall.getCallerIdentity) = false := by
  intro c hc
  unfold main at hc
  rcases mem_seq_calls _ _ c hc with h | h
  · rw [assume_role_calls] at h
    simp at h
    subst h
    rfl
  · have hphase : 1 ≤ ApiCall.phase c := by
      rcases mem_seq_calls _ _ c h with h2 | h2
      · cases h2
      rcases mem_seq_calls _ _ c h2 with h3 | h3
      · rw [s3_phase env false c h3]
      rcases mem_seq_calls _ _ c h3 with h4 | h4
      · unfold get_and_delete_volumes_and_snapshots at h4
        rcases mem_seq_calls _ _ c h4 with h5 | h5
        · rw [snapshots_phase env false c h5]; omega
        · rw [volumes_phase env false c h5]; omega
      · rw [zones_phase env false c h4]; omega
    have hne : c ≠ ApiCall.getCallerIdentity := by
      intro hgc
      subst hgc
      simp [ApiCall.phase] at hphase
    simp [hne]

/-- C10: two runs that differ only in the verbose flag issue exactly the
same mutating calls (deletes and record-set changes), print the same
tallies, and end the same way; the verbose run's call trace differs only by
the one extra read-only caller-identity lookup during role assumption. -/
theorem C10_verbose_noninterference (env : Env) (account_id : Nat) :
    (main env account_id true).calls.filter ApiCall.isMutating
      = (main env account_id false).calls.filter ApiCall.isMutating
    ∧ (main env account_id true).logs.filter LogLine.isTally
      = (main env account_id false).logs.filter LogLine.isTally
    ∧ (main env account_id true).err = (main env account_id false).err
    ∧ (main env account_id true).calls.filter (fun c => !(c == ApiCall.getCallerIdentity))
      = (main env account_id false).calls := by
  obtain ⟨hc, hl, he⟩ := main_vindep env account_id
  refine ⟨?_, hl, he, ?_⟩
  · rw [hc, List.filter_cons]
    have : ApiCall.isMutating ApiCall.getCallerIdentity = false := rfl
    simp [this]
  · rw [hc, List.filter_cons]
    simp only [BEq.refl, Bool.not_true, Bool.false_eq_true, if_false]
    exact List.filter_eq_self.mpr (fun c hmem => by
      simp [main_false_no_gci env account_id c hmem])

/-! A fatal error in any listing call collapses the rest of the run -/

theorem seq_some (a b : RunOut) {e : AwsError} (h : a.err = some e) :
    RunOut.seq a b = a := by
  unfold RunOut.seq
  rw [h]

theorem s3_error_runout (env : Env) (v : Bool) (e : AwsError)
    (hb : env.bucketsResponse = Except.error e) :
    get_and_delete_s3_buckets env v = ⟨[ApiCall.listBuckets], [], some e⟩ := by
  simp [get_and_delete_s3_buckets, hb]

theorem snapshots_error_runout (env : Env) (v : Bool) (e : AwsError)
    (hs : env.snapshotPages = Except.error e) :
    get_and_delete_snapshots env v
      = ⟨[ApiCall.describeSnapshots "owner-alias" "self"], [], some e⟩ := by
  simp [get_and_delete_snapshots, hs]

theorem volumes_error_runout (env : Env) (v : Bool) (e : AwsError)
    (hv : env.volumePages = Except.error e) :
    get_and_delete_ebs_volumes env v = ⟨[ApiCall.describeVolumes], [], some e⟩ := by
  simp [get_and_delete_ebs_volumes, hv]

theorem zones_error_runout (env : Env) (v : Bool) (e : AwsError)
    (hz : env.zonePages = Except.error e) :
    get_and_delete_route53_zones env v = ⟨[ApiCall.listHostedZones], [], some e⟩ := by
  simp [get_and_delete_route53_zones, hz]

theorem not_route53_mutating_of_phase_le (c : ApiCall) (h : ApiCall.phase c ≤ 3) :
    (!c.isDeleteHostedZone && !c.isChangeResourceRecordSets) = true := by
  cases c <;>
    simp_all [ApiCall.phase, ApiCall.isDeleteHostedZone, ApiCall.isChangeResourceRecordSets]

theorem mainRest_bucket_error (env : Env) (a : Nat) (v : Bool) (e : AwsError)
    (hb : env.bucketsResponse = Except.error e) :
    mainRest env a v = ⟨[ApiCall.listBuckets], [LogLine.deletingResources a], some e⟩ := by
  have hB := s3_error_runout env v e hb
  unfold mainRest
  rw [seq_some (get_and_delete_s3_buckets env v) _ (by rw [hB]), hB, seq_none _ _ rfl]
  rfl

theorem mainRest_snapshot_error (env : Env) (a : Nat) (v : Bool) (e : AwsError)
    (bs : List Bucket) (hb : env.bucketsResponse = Except.ok bs)
    (hs : env.snapshotPages = Except.error e) :
    (mainRest env a v).calls
      = (get_and_delete_s3_buckets env v).calls
        ++ [ApiCall.describeSnapshots "owner-alias" "self"]
    ∧ (mainRest env a v).err = some e := by
  have hS := snapshots_error_runout env v e hs
  have hBe := s3_err_none env v bs hb
  have hcollapse : mainRest env a v
      = ⟨[] ++ ((get_and_delete_s3_buckets env v).calls
            ++ [ApiCall.describeSnapshots "owner-alias" "self"]),
         [LogLine.deletingResources a] ++ ((get_and_delete_s3_buckets env v).logs ++ []),
         some e⟩ := by
    unfold mainRest get_and_delete_volumes_and_snapshots
    rw [seq_some (get_and_delete_snapshots env v) (get_and_delete_ebs_volumes env v)
          (by rw [hS]),
        seq_some (get_and_delete_snapshots env v) (get_and_delete_route53_zones env v)
          (by rw [hS]),
        seq_none (get_and_delete_s3_buckets env v) _ hBe, hS, seq_none _ _ rfl]
  rw [hcollapse]
  exact ⟨by simp, rfl⟩

theorem mainRest_volume_error (env : Env) (a : Nat) (v : Bool) (e : AwsError)
    (bs : List Bucket) (sps : List (List Snapshot))
    (hb : env.bucketsResponse = Except.ok bs) (hs : env.snapshotPages = Except.ok sps)
    (hv : env.volumePages = Except.error e) :
    (mainRest env a v).calls
      = (get_and_delete_s3_buckets env v).calls
        ++ ((get_and_delete_snapshots env v).calls ++ [ApiCall.describeVolumes])
    ∧ (mainRest env a v).err = some e := by
  have hV := volumes_error_runout env v e hv
  have hBe := s3_err_none env v bs hb
  have hSe := snapshots_err_none env v sps hs
  have hcollapse : mainRest env a v
      = ⟨[] ++ ((get_and_delete_s3_buckets env v).calls
            ++ ((get_and_delete_snapshots env v).calls ++ [ApiCall.describeVolumes])),
         [LogLine.deletingResources a] ++ ((get_and_delete_s3_buckets env v).logs
            ++ ((get_and_delete_snapshots env v).logs ++ [])),
         some e⟩ := by
    unfold mainRest get_and_delete_volumes_and_snapshots
    rw [seq_none (get_and_delete_snapshots env v) _ hSe, hV,
        seq_some _ (get_and_delete_route53_zones env v) rfl,
        seq_none (get_and_delete_s3_buckets env v) _ hBe, seq_none _ _ rfl]
  rw [hcollapse]
  exact ⟨by simp, rfl⟩

theorem mainRest_zone_error (env : Env) (a : Nat) (v : Bool) (e : AwsError)
    (bs : List Bucket) (sps : List (List Snapshot)) (vps : List (List Volume))
    (hb : env.bucketsResponse = Except.ok bs) (hs : env.snapshotPages = Except.ok sps)
    (hv : env.volumePages = Except.ok vps) (hz : env.zonePages = Except.error e) :
    (mainRest env a v).calls
      = (get_and_delete_s3_buckets env v).calls
        ++ (((get_and_delete_snapshots env v).calls
              ++ (get_and_delete_ebs_volumes env v).calls)
            ++ [ApiCall.listHostedZones])
    ∧ (mainRest env a v).err = some e := by
  have hZ := zones_error_runout env v e hz
  have hBe := s3_err_none env v bs hb
  have hSe := snapshots_err_none env v sps hs
  have hVe := volumes_err_none env v vps hv
  have hcollapse : mainRest env a v
      = ⟨[] ++ ((get_and_delete_s3_buckets env v).calls
            ++ (((get_and_delete_snapshots env v).calls
                  ++ (get_and_delete_ebs_volumes env v).calls)
                ++ [ApiCall.listHostedZones])),
         [LogLine.deletingResources a] ++ ((get_and_delete_s3_buckets env v).logs
            ++ (((get_and_delete_snapshots env v).logs
                  ++ (get_and_delete_ebs_volumes env v).logs)
                ++ [])),
         some e⟩ := by
    unfold mainRest get_and_delete_volumes_and_snapshots
    rw [seq_none (get_and_delete_snapshots env v) _ hSe,
        seq_none ⟨(get_and_delete_snapshots env v).calls
            ++ (get_and_delete_ebs_volumes env v).calls,
          (get_and_delete_snapshots env v).logs ++ (get_and_delete_ebs_volumes env v).logs,
          (get_and_delete_ebs_volumes env v).err⟩ (get_and_delete_route53_zones env v) hVe,
        hZ, seq_none (get_and_delete_s3_buckets env v) _ hBe, seq_none _ _ rfl]
  rw [hcollapse]
  exact ⟨by simp, rfl⟩

/-- C2 amended: the script installs no exception handler, so a fatal error
in any one resource type's listing call aborts the entire run: the error
becomes the run's error, the failing type's cleanup ends early having issued
only its listing call, and no call past the failing listing's stage is
issued — no subsequent resource type's cleanup runs (for a zone-listing
failure: no record-set change and no zone delete is ever issued);
role-assumption failure aborts before any mutating call. -/
theorem C2_amended_listing_error_aborts (env : Env) (a : Nat) (v : Bool) (e : AwsError) :
    (env.assumeRoleResult = Except.error e →
      (main env a v).err = some e
      ∧ ((main env a v).calls.all fun c => !c.isMutating) = true)
    ∧ (env.assumeRoleResult = Except.ok () → env.bucketsResponse = Except.error e →
      (main env a v).err = some e
      ∧ (get_and_delete_s3_buckets env v).calls = [ApiCall.listBuckets]
      ∧ ((main env a v).calls.all fun c => decide (ApiCall.phase c ≤ 1)) = true)
    ∧ (∀ bs, env.assumeRoleResult = Except.ok () → env.bucketsResponse = Except.ok bs →
        env.snapshotPages = Except.error e →
      (main env a v).err = some e
      ∧ (get_and_delete_snapshots env v).calls
          = [ApiCall.describeSnapshots "owner-alias" "self"]
      ∧ ((main env a v).calls.all fun c => decide (ApiCall.phase c ≤ 2)) = true)
    ∧ (∀ bs sps, env.assumeRoleResult = Except.ok () → env.bucketsResponse = Except.ok bs →
        env.snapshotPages = Except.ok sps → env.volumePages = Except.error e →
      (main env a v).err = some e
      ∧ (get_and_delete_ebs_volumes env v).calls = [ApiCall.describeVolumes]
      ∧ ((main env a v).calls.all fun c => decide (ApiCall.phase c ≤ 3)) = true)
    ∧ (∀ bs sps vps, env.assumeRoleResult = Except.ok () →
        env.bucketsResponse = Except.ok bs → env.snapshotPages = Except.ok sps →
        env.volumePages = Except.ok vps → env.zonePages = Except.error e →
      (main env a v).err = some e
      ∧ (get_and_delete_route53_zones env v).calls = [ApiCall.listHostedZones]
      ∧ ((main env a v).calls.all
            fun c => !c.isDeleteHostedZone && !c.isChangeResourceRecordSets) = true) := by
  refine ⟨?_, ?_, ?_, ?_, ?_⟩
  · intro herr
    constructor
    · simp [main, RunOut.seq, assume_role, herr]
    · cases v <;> simp [main, RunOut.seq, assume_role, herr, ApiCall.isMutating]
  · intro hok hb
    have hA := assume_role_err_none env a v hok
    have hrest := mainRest_bucket_error env a v e hb
    have hm : main env a v = ⟨(assume_role env a v).calls ++ [ApiCall.listBuckets],
        (assume_role env a v).logs ++ [LogLine.deletingResources a], some e⟩ := by
      rw [main_unfold, seq_none _ _ hA, hrest]
    refine ⟨by rw [hm], by rw [s3_error_runout env v e hb], ?_⟩
    rw [hm, List.all_eq_true]
    intro c hc
    rcases List.mem_append.mp hc with h | h
    · simp [assume_role_phase env a v c h]
    · rw [List.mem_singleton] at h
      subst h
      rfl
  · intro bs hok hb hs
    have hA := assume_role_err_none env a v hok
    obtain ⟨hrc, hre⟩ := mainRest_snapshot_error env a v e bs hb hs
    have hm2 : (main env a v).calls
        = (assume_role env a v).calls ++ (mainRest env a v).calls := by
      rw [main_unfold, seq_none _ _ hA]
    have hm1 : (main env a v).err = some e := by
      rw [main_unfold, seq_none _ _ hA]
      exact hre
    refine ⟨hm1, by rw [snapshots_error_runout env v e hs], ?_⟩
    rw [List.all_eq_true]
    intro c hc
    rw [hm2, hrc] at hc
    rcases List.mem_append.mp hc with h | h
    · simp [assume_role_phase env a v c h]
    rcases List.mem_append.mp h with h2 | h2
    · simp [s3_phase env v c h2]
    · rw [List.mem_singleton] at h2
      subst h2
      rfl
  · intro bs sps hok hb hs hv
    have hA := assume_role_err_none env a v hok
    obtain ⟨hrc, hre⟩ := mainRest_volume_error env a v e bs sps hb hs hv
    have hm2 : (main env a v).calls
        = (assume_role env a v).calls ++ (mainRest env a v).calls := by
      rw [main_unfold, seq_none _ _ hA]
    have hm1 : (main env a v).err = some e := by
      rw [main_unfold, seq_none _ _ hA]
      exact hre
    refine ⟨hm1, by rw [volumes_error_runout env v e hv], ?_⟩
    rw [List.all_eq_true]
    intro c hc
    rw [hm2, hrc] at hc
    rcases List.mem_append.mp hc with h | h
    · simp [assume_role_phase env a v c h]
    rcases List.mem_append.mp h with h2 | h2
    · simp [s3_phase env v c h2]
    rcases List.mem_append.mp h2 with h3 | h3
    · simp [snapshots_phase env v c h3]
    · rw [List.mem_singleton] at h3
      subst h3
      rfl
  · intro bs sps vps hok hb hs hv hz
    have hA := assume_role_err_none env a v hok
    obtain ⟨hrc, hre⟩ := mainRest_zone_error env a v e bs sps vps hb hs hv hz
    have hm2 : (main env a v).calls
        = (assume_role env a v).calls ++ (mainRest env a v).calls := by
      rw [main_unfold, seq_none _ _ hA]
    have hm1 : (main env a v).err = some e := by
      rw [main_unfold, seq_none _ _ hA]
      exact hre
    refine ⟨hm1, by rw [zones_error_runout env v e hz], ?_⟩
    rw [List.all_eq_true]
    intro c hc
    rw [hm2, hrc] at hc
    rcases List.mem_append.mp hc with h | h
    · exact not_route53_mutating_of_phase_le c
        (by have := assume_role_phase env a v c h; omega)
    rcases List.mem_append.mp h with h2 | h2
    · exact not_route53_mutating_of_phase_le c (by have := s3_phase env v c h2; omega)
    rcases List.mem_append.mp h2 with h3 | h3
    · rcases List.mem_append.mp h3 with h4 | h4
      · exact not_route53_mutating_of_phase_le c
          (by have := snapshots_phase env v c h4; omega)
      · exact not_route53_mutating_of_phase_le c
          (by have := volumes_phase env v c h4; omega)
    · rw [List.mem_singleton] at h3
      subst h3
      rfl

/-- Witness for the amended C2: one concrete aborting account per failure
site — role assumption, bucket listing, snapshot listing, volume listing and
zone listing. -/
theorem C2_amended_listing_error_aborts_witness :
    ((main envRoleFail 1 false).err = some (AwsError.fatal "assume role denied")
      ∧ ((main envRoleFail 1 false).calls.all fun c => !c.isMutating) = true)
    ∧ ((main envC2 1 false).err = some (AwsError.fatal "s3 listing transport fault")
      ∧ (get_and_delete_s3_buckets envC2 false).calls = [ApiCall.listBuckets]
      ∧ ((main envC2 1 false).calls.all fun c => decide (ApiCall.phase c ≤ 1)) = true)
    ∧ ((main envSnapFail 1 false).err = some (AwsError.fatal "snapshot listing fault")
      ∧ (get_and_delete_snapshots envSnapFail false).calls
          = [ApiCall.describeSnapshots "owner-alias" "self"]
      ∧ ((main envSnapFail 1 false).calls.all fun c => decide (ApiCall.phase c ≤ 2)) = true)
    ∧ ((main envVolFail 1 false).err = some (AwsError.fatal "volume listing fault")
      ∧ (get_and_delete_ebs_volumes envVolFail false).calls = [ApiCall.describeVolumes]
      ∧ ((main envVolFail 1 false).calls.all fun c => decide (ApiCall.phase c ≤ 3)) = true)
    ∧ ((main envZoneFail 1 false).err = some (AwsError.fatal "zone listing fault")
      ∧ (get_and_delete_route53_zones envZoneFail false).calls = [ApiCall.listHostedZones]
      ∧ ((main envZoneFail 1 false).calls.all
            fun c => !c.isDeleteHostedZone && !c.isChangeResourceRecordSets) = true) :=
  ⟨(C2_amended_listing_error_aborts envRoleFail 1 false
      (AwsError.fatal "assume role denied")).1 rfl,
   (C2_amended_listing_error_aborts envC2 1 false
      (AwsError.fatal "s3 listing transport fault")).2.1 rfl rfl,
   (C2_amended_listing_error_aborts envSnapFail 1 false
      (AwsError.fatal "snapshot listing fault")).2.2.1 [{ name := "b" }] rfl rfl rfl,
   (C2_amended_listing_error_aborts envVolFail 1 false
      (AwsError.fatal "volume listing fault")).2.2.2.1 [] [[{ id := "s1" }]] rfl rfl rfl rfl,
   (C2_amended_listing_error_aborts envZoneFail 1 false
      (AwsError.fatal "zone listing fault")).2.2.2.2 [] [] [[{ id := "v1" }]]
      rfl rfl rfl rfl rfl⟩

end AAO
